import Mathlib

/-!
Verification of the WotLK feral cat DPS simulation engine
(`wotlk_cat_sim.py`).

Shallow embedding conventions:
* Python floats are modeled as exact rationals (`ℚ`); decimal literals in
  the source become the corresponding exact rationals.
* The source's epsilon tolerance `1e-9` is the exact rational `eps`.
* `numpy.arange(start, stop, step)` is `arangeQ`, producing
  `start + step * i` for `i < ⌈(stop - start) / step⌉`.
* The external collaborators excluded by the design (the `player` actor
  model, `trinkets`, `sim_utils` damage rolls) are a structure `Phys` of
  deterministic functions; the simulation's own random draws (fight-start
  swing offset, Revitalize rolls) come from a rational draw stream carried
  in the state.
* `numpy.inf` (the permanent bear-tank Mangle debuff) is `Option ℚ` with
  `none` as infinity.
* Combat-log entries carry the raw logged values; string formatting is an
  excluded collaborator. Methods containing `if self.log: append` sites
  return their would-be entries, and the callers append them exactly when
  the log flag is on, so the conditional accumulation happens at the same
  program points with the same observable log.
-/

set_option maxHeartbeats 1000000

namespace CatSim

/-- Python bool coerced into arithmetic (False = 0, True = 1). -/
def b2q (b : Bool) : ℚ := if b then 1 else 0

/-- The source's floating-point boundary tolerance 1e-9. -/
def eps : ℚ := 1 / 1000000000

/-- Python list indexing with a default (the source indexes within range). -/
def getQ (l : List ℚ) (i : ℕ) : ℚ := l.getD i 0

/-- Head of a schedule list; the source indexes `[0]` under a nonemptiness
invariant, we default to 0. -/
def headQ (l : List ℚ) : ℚ := l.headD 0

/-- Model of `numpy.arange(start, stop, step)` for positive step:
`start + step * i` for `i < ⌈(stop - start) / step⌉`. -/
def arangeQ (start stop step : ℚ) : List ℚ :=
  (List.range (Int.toNat ⌈(stop - start) / step⌉)).map
    (fun i : ℕ => start + step * (i : ℚ))

/-- Insert into a sorted rational list (models `list.sort()` on a list kept
sorted plus one appended element). -/
def insertQ (x : ℚ) : List ℚ → List ℚ
  | [] => [x]
  | y :: ys => if x ≤ y then x :: y :: ys else y :: insertQ x ys

/-- Insertion sort on rationals. -/
def sortQ : List ℚ → List ℚ
  | [] => []
  | x :: xs => insertQ x (sortQ xs)

/-- Insert a `(dueTime, cost)` pair by lexicographic order (Python tuple
comparison used by `pending_actions.sort()`). -/
def insertPair (x : ℚ × ℚ) : List (ℚ × ℚ) → List (ℚ × ℚ)
  | [] => [x]
  | y :: ys =>
    if x.1 < y.1 ∨ (x.1 = y.1 ∧ x.2 ≤ y.2) then x :: y :: ys
    else y :: insertPair x ys

/-- Sort `(dueTime, cost)` pairs lexicographically. -/
def sortPairs : List (ℚ × ℚ) → List (ℚ × ℚ)
  | [] => []
  | x :: xs => insertPair x (sortPairs xs)

/-- `v < y` for an extended time (`none` = `numpy.inf`). -/
def eLt : Option ℚ → ℚ → Bool
  | none, _ => false
  | some v, y => decide (v < y)

/-- `v ≤ y` for an extended time (`none` = `numpy.inf`). -/
def eLe : Option ℚ → ℚ → Bool
  | none, _ => false
  | some v, y => decide (v ≤ y)

/-- Whether the head of a schedule is due (`time >= list[0]`), false on an
empty list. -/
def dueHead (l : List ℚ) (t : ℚ) : Bool :=
  match l with
  | x :: _ => decide (x ≤ t)
  | [] => false

/-- Whether the head of a schedule equals the current time exactly
(`time == list[0]`), false on an empty list. -/
def dueHeadEq (l : List ℚ) (t : ℚ) : Bool :=
  match l with
  | x :: _ => decide (x = t)
  | [] => false

/-! ## Uptime trackers (`UptimeTracker`, `RipTracker`, `RoarTracker`) -/

/-- Accumulator state of an `UptimeTracker`. -/
structure TrkState where
  uptime : ℚ
  last_update : ℚ
  active : Bool
  num_procs : ℕ

/-- `UptimeTracker.reset`: fresh accumulators, measurement starts at 15 s. -/
def TrkState.reset : TrkState := ⟨0, 15, false, 0⟩

/-- The in-window body of `UptimeTracker.update` (the source's lines that
update the running average and proc counter once the window guard holds),
with the activity predicate's result passed in. -/
def trkApply (activeNow : Bool) (t : ℚ) (s : TrkState) : TrkState :=
  let dt := t - s.last_update
  { uptime := (s.uptime * (s.last_update - 15) + dt * b2q activeNow) / (t - 15)
    last_update := t
    num_procs := if activeNow && !s.active then s.num_procs + 1 else s.num_procs
    active := activeNow }

/-- `UptimeTracker.update` with the subclass activity predicate resolved to
its boolean result (as for the `RipTracker` / `RoarTracker` registered by
the `Simulation` constructor). -/
def trkUpdate (activeNow : Bool) (t fl : ℚ) (s : TrkState) : TrkState :=
  if s.last_update < t ∧ t < fl - 15 then trkApply activeNow t s else s

/-- The tracker variants appearing in the source: the abstract base class
and the two subclasses. -/
inductive TrackerKind
  | base
  | rip
  | roar
deriving DecidableEq

/-- Result of evaluating `is_active`: a boolean for the implemented
subclasses, or the `NotImplementedError` value that the base
`UptimeTracker.is_active` returns (note: the source returns it rather than
raising). -/
inductive ActiveRes
  | ok (b : Bool)
  | notImplemented

/-- Dispatch of `is_active` over the tracker class hierarchy:
`RipTracker.is_active` reads `sim.rip_debuff`, `RoarTracker.is_active`
reads `player.savage_roar`, and the base class yields the
not-implemented fallback value. -/
def UptimeTracker.is_active (k : TrackerKind) (rip_debuff savage_roar : Bool) :
    ActiveRes :=
  match k with
  | .rip => .ok rip_debuff
  | .roar => .ok savage_roar
  | .base => .notImplemented

/-- `UptimeTracker.update` at the class level: inside the measurement
window the activity predicate is consulted; on the base class the
arithmetic `dt * active_now` then hits the returned `NotImplementedError`
value, a runtime type error. Outside the window no predicate is consulted
and the call succeeds on any tracker. -/
def trackerUpdateE (k : TrackerKind) (t fl : ℚ) (rip_debuff savage_roar : Bool)
    (s : TrkState) : Except String TrkState :=
  if s.last_update < t ∧ t < fl - 15 then
    match UptimeTracker.is_active k rip_debuff savage_roar with
    | .ok b => .ok (trkApply b t s)
    | .notImplemented =>
        .error "TypeError: is_active returned NotImplementedError"
  else .ok s

/-- Whether an `Except`-valued update succeeded. -/
def exceptOk : Except String TrkState → Bool
  | .ok _ => true
  | .error _ => false

/-- The tracker kinds the `Simulation` constructor registers
(`self.trinkets.append(RipTracker())`, `...(RoarTracker())`). -/
def simRegisteredTrackerKinds : List TrackerKind := [.rip, .roar]

/-- A sequence of `update` calls, each given as `(time, is_active result)`,
folded over a tracker. -/
def trkRun (fl : ℚ) (l : List (ℚ × Bool)) (s : TrkState) : TrkState :=
  l.foldl (fun s p => trkUpdate p.2 p.1 fl s) s

/-! ## Replicate aggregation (`Simulation.run_replicates` consolidation) -/

/-- The consolidation loop of `run_replicates` from the second replicate
on: each keyed entry is updated by `avg = (avg * i + val) / (i + 1)`. -/
def aggregateGo {κ : Type} (i : ℕ) (acc : κ → ℚ) : List (κ → ℚ) → (κ → ℚ)
  | [] => acc
  | x :: xs => aggregateGo (i + 1) (fun k => (acc k * i + x k) / (i + 1)) xs

/-- Consolidation of a list of keyed replicate results (per-ability
casts/damage entries and per-aura proc/uptime entries alike): the first
replicate's breakdown is deep-copied, later ones folded in by the
running-average update. -/
def aggregateResults {κ : Type} : List (κ → ℚ) → (κ → ℚ)
  | [] => fun _ => 0
  | r :: rest => aggregateGo 1 r rest

/-! ## Stat-weight derivative bookkeeping (`Simulation.calc_deriv`) -/

/-- The player attributes touched by `calc_deriv` increments. -/
inductive StatParam
  | attack_power
  | agility
  | crit_chance
  | miss_chance
  | dodge_chance
  | swing_timer
  | armor_pen_rating
  | bonus_damage
deriving DecidableEq

/-- The primary player attributes as seen by `calc_deriv`
(`getattr`/`setattr` targets plus the coupled fields). -/
structure PlayerAttrs where
  attack_power : ℚ
  agility : ℚ
  crit_chance : ℚ
  miss_chance : ℚ
  dodge_chance : ℚ
  swing_timer : ℚ
  armor_pen_rating : ℚ
  bonus_damage : ℚ
  ap_mod : ℚ

/-- `getattr(self.player, param)`. -/
def getAttr (p : PlayerAttrs) : StatParam → ℚ
  | .attack_power => p.attack_power
  | .agility => p.agility
  | .crit_chance => p.crit_chance
  | .miss_chance => p.miss_chance
  | .dodge_chance => p.dodge_chance
  | .swing_timer => p.swing_timer
  | .armor_pen_rating => p.armor_pen_rating
  | .bonus_damage => p.bonus_damage

/-- `setattr(self.player, param, v)`. -/
def setAttr (p : PlayerAttrs) : StatParam → ℚ → PlayerAttrs
  | .attack_power, v => { p with attack_power := v }
  | .agility, v => { p with agility := v }
  | .crit_chance, v => { p with crit_chance := v }
  | .miss_chance, v => { p with miss_chance := v }
  | .dodge_chance, v => { p with dodge_chance := v }
  | .swing_timer, v => { p with swing_timer := v }
  | .armor_pen_rating, v => { p with armor_pen_rating := v }
  | .bonus_damage, v => { p with bonus_damage := v }

/-- `Simulation.calc_deriv`: increment the stat (with the coupled
`miss_chance` update for dodge and the attack-power/crit updates for
agility), run replicates, then undo the increments.

Modelled from the spec for the replicate phase: replicates execute in
worker processes on pickled copies (`multiprocessing.Pool.imap`), so the
parent player's attributes are read but not mutated by them; `runRep` is
therefore a pure observation of the attributes. -/
def Simulation.calc_deriv (runRep : PlayerAttrs → ℚ) (param : StatParam)
    (increment : ℚ) (base_dps : ℚ) (p : PlayerAttrs) : ℚ × PlayerAttrs :=
  let original_value := getAttr p param
  let p := setAttr p param (original_value + increment)
  let p := if param = .dodge_chance then
    { p with miss_chance := p.miss_chance + increment } else p
  let p := if param = .agility then
    { p with attack_power := p.attack_power + p.ap_mod * increment
             crit_chance := p.crit_chance + increment / 83.33 / 100 } else p
  let avg_dps := runRep p
  let p := setAttr p param original_value
  let p := if param = .dodge_chance then
    { p with miss_chance := p.miss_chance - increment } else p
  let p := if param = .agility then
    { p with attack_power := p.attack_power - p.ap_mod * increment
             crit_chance := p.crit_chance - increment / 83.33 / 100 } else p
  (avg_dps - base_dps, p)

/-! ## Data model: combat log, damage breakdown, player, core state -/

/-- A combat-log entry carrying the raw logged values (`gen_log` formats
these as strings; formatting is an excluded collaborator). Player abilities
log through their own payloads, prefixed with the time (line
`['%.3f' % time] + self.player.combat_log`). -/
inductive LogLine
  | gen (time : ℚ) (event outcome : String) (energy : ℚ) (cp : ℕ)
      (mana rage : ℚ)
  | num (time : ℚ) (event : String) (value : ℚ) (energy : ℚ) (cp : ℕ)
      (mana rage : ℚ)
  | playerEv (time : ℚ) (payload : List String)

/-- `player.dmg_breakdown`: ordered mapping ability name to
(casts, damage). -/
def Brk : Type := List (String × ℚ × ℚ)

/-- Add damage to one ability's breakdown entry
(`dmg_breakdown[name]['damage'] += amt`; the key is present in the
source's dictionaries). -/
def brkAdd (name : String) (amt : ℚ) (b : Brk) : Brk :=
  b.map (fun r => if r.1 = name then (r.1, r.2.1, r.2.2 + amt) else r)

/-- The player actor state as read and written by the simulation. Static
attributes and ability parameters are fields too (the actor model mutates
them through the `Phys` collaborator functions). -/
structure Player where
  energy : ℚ
  combo_points : ℕ
  mana : ℚ
  rage : ℚ
  gcd : ℚ
  omen_icd : ℚ
  rune_cd : ℚ
  tf_cd : ℚ
  berserk_cd : ℚ
  enrage_cd : ℚ
  mangle_cd : ℚ
  five_second_rule : Bool
  last_shift : ℚ
  berserk : Bool
  cat_form : Bool
  savage_roar : Bool
  omen : Bool
  omen_proc : Bool
  ready_to_shift : Bool
  enrage : Bool
  berserk_glyph : Bool
  shred_glyph : Bool
  primal_gore : Bool
  furor : ℕ
  rip_duration : ℚ
  rip_cost : ℚ
  bite_cost : ℚ
  shred_cost : ℚ
  mangle_cost : ℚ
  mangle_cost_base : ℚ
  rake_cost : ℚ
  roar_cost : ℚ
  roar_durations : List ℚ
  roar_fac : ℚ
  crit_chance : ℚ
  miss_chance : ℚ
  dodge_chance : ℚ
  attack_power : ℚ
  agility : ℚ
  ap_mod : ℚ
  armor_pen_rating : ℚ
  bonus_damage : ℚ
  swing_timer : ℚ
  rip_tick : List ℚ
  bite_low : List ℚ
  bite_high : List ℚ
  bite_multiplier : ℚ
  shred_low : ℚ
  shred_high : ℚ
  rake_hit : ℚ
  rake_tick : ℚ
  lacerate_tick : ℚ
  dmg_breakdown : Brk
  combat_log : Option (List String)

/-- `Simulation.default_strategy` keys. -/
structure Strategy where
  min_combos_for_rip : ℕ
  use_rake : Bool
  use_bite : Bool
  bite_time : Option ℚ
  min_combos_for_bite : ℕ
  mangle_spam : Bool
  bear_mangle : Bool
  use_berserk : Bool
  prepop_berserk : Bool
  preproc_omen : Bool
  bearweave : Bool
  berserk_bite_thresh : ℚ
  lacerate_prio : Bool
  lacerate_time : ℚ
  powerbear : Bool
  min_roar_offset : ℚ

/-- `Simulation.default_params` keys plus the dynamically-added
`tigers_fury` entry; `sunder` doubles as the stack counter the
`ArmorDebuffs` controller increments. -/
structure Params where
  gift_of_arthas : Bool
  boss_armor : ℚ
  sunder : ℕ
  faerie_fire : Bool
  blood_frenzy : Bool
  shattering_throw : Bool
  tigers_fury : Bool

/-- The full mutable simulation state (`Simulation` attributes plus the
owned `Player`), excluding the combat log and the log flag. -/
structure Core where
  player : Player
  fight_length : ℚ
  latency : ℚ
  haste_multiplier : ℚ
  revitalize_frequency : ℚ
  strategy : Strategy
  params : Params
  use_sunder : Bool
  mangle_debuff : Bool
  mangle_end : Option ℚ
  rip_debuff : Bool
  rip_start : ℚ
  rip_end : ℚ
  rip_ticks : List ℚ
  rip_damage : ℚ
  rip_crit_chance : ℚ
  rip_sr_snapshot : Bool
  rake_debuff : Bool
  rake_end : ℚ
  rake_ticks : List ℚ
  rake_damage : ℚ
  rake_sr_snapshot : Bool
  lacerate_debuff : Bool
  lacerate_end : ℚ
  lacerate_ticks : List ℚ
  lacerate_stacks : ℕ
  lacerate_damage : ℚ
  lacerate_crit_chance : ℚ
  last_lacerate_tick : ℚ
  tf_end : ℚ
  berserk_end : ℚ
  roar_end : ℚ
  next_action : ℚ
  swing_timer : ℚ
  swing_times : List ℚ
  proc_end_times : List ℚ
  time_to_oom : Option ℚ
  ripTrk : TrkState
  roarTrk : TrkState
  extSt : List ℚ
  rng : List ℚ

/-- Pop one draw from the simulation's random stream
(`np.random.rand()` / `np.random.randn()` sites inside the engine). -/
def Core.draw (c : Core) : ℚ × Core :=
  (c.rng.headD 0, { c with rng := c.rng.tail })

/-- The external collaborators, as deterministic functions: the `player`
actor model's ability casts and stat recomputations, the `sim_utils`
damage roll, and the trinket objects' uniform `update`/`reset` hooks.
Modelled from the spec: these modules are outside the core source; their
randomness is resolved into the function values, and per the interface
contract they read and mutate only the core state (never the log flag or
the combat log). -/
structure Phys where
  reset : Player → Player
  regen : ℚ → Player → Player
  swing : Player → Player × ℚ
  maul : Bool → Player → Player × ℚ
  mangle : Player → Player × ℚ × Bool
  rake : Bool → Player → Player × ℚ × Bool
  lacerate : Bool → Player → Player × ℚ × Bool
  rip : Player → Player × ℚ × Bool
  shred : Bool → Player → Player × ℚ × Bool
  bite : Player → Player × ℚ
  roar : ℚ → Player → Player × ℚ
  shift : ℚ → Bool → Player → Player
  calc_damage_params : Params → Player → Player
  set_ability_costs : Player → Player
  calc_crit_multiplier : Player → ℚ
  calc_yellow : ℚ → ℚ → ℚ → ℚ
  periodic_procs : ℚ → Core → Core × ℚ
  ext_update : ℚ → Core → Core × ℚ
  ext_reset : Core → Core
  ext_aura : Core → List (String × ℚ × ℚ)

/-- `Simulation.gen_log`: a custom combat-log entry from the current
player resources. -/
def Simulation.gen_log (c : Core) (t : ℚ) (event outcome : String) : LogLine :=
  .gen t event outcome c.player.energy c.player.combo_points c.player.mana
    c.player.rage

/-- `ArmorDebuffs.update`: add a Sunder stack every global cooldown until
five stacks, re-deriving damage parameters after each stack. -/
def ArmorDebuffs.update (phys : Phys) (t : ℚ) (c : Core) :
    Core × ℚ × List LogLine :=
  if c.use_sunder ∧ c.params.sunder < 5 ∧ 1.5 * (c.params.sunder : ℚ) ≤ t then
    let c := { c with params := { c.params with sunder := c.params.sunder + 1 } }
    let e := Simulation.gen_log c t "Sunder Armor" "applied"
    let c := { c with player := phys.calc_damage_params c.params c.player }
    (c, 0, [e])
  else (c, 0, [])

/-! ## Ability cast wrappers (`Simulation.mangle` … `Simulation.shred`) -/

/-- `Simulation.mangle`: cast Mangle, and on success flag the debuff with
its 60-second (or permanent, with a bear tank) duration. -/
def Simulation.mangle (phys : Phys) (t : ℚ) (c : Core) : Core × ℚ :=
  let r := phys.mangle c.player
  let c := { c with player := r.1 }
  if r.2.2 then
    ({ c with mangle_debuff := true
              mangle_end := if c.strategy.bear_mangle then none
                            else some (t + 60) }, r.2.1)
  else (c, r.2.1)

/-- `Simulation.rake`: cast Rake, and on success start the 9-second bleed
with ticks every 3 seconds and the Savage Roar snapshot. -/
def Simulation.rake (phys : Phys) (t : ℚ) (c : Core) : Core × ℚ :=
  let r := phys.rake c.mangle_debuff c.player
  let c := { c with player := r.1 }
  if r.2.2 then
    ({ c with rake_debuff := true
              rake_end := t + 9
              rake_ticks := arangeQ (t + 3) (t + 9.01) 3
              rake_damage := r.1.rake_tick
              rake_sr_snapshot := r.1.savage_roar }, r.2.1)
  else (c, r.2.1)

/-- The tick a Lacerate refresh continues from: the last scheduled tick, or
if none remain, the last executed tick. -/
def lacLastTick (c : Core) : ℚ :=
  match c.lacerate_ticks.getLast? with
  | some x => x
  | none => c.last_lacerate_tick

/-- `Simulation.lacerate`: cast Lacerate; a refresh of an active instance
keeps the tick cadence (new ticks appended 3 seconds after the last one)
and increments the stack counter up to 5, while a fresh application starts
a new schedule at one stack. -/
def Simulation.lacerate (phys : Phys) (t : ℚ) (c : Core) : Core × ℚ :=
  let r := phys.lacerate c.mangle_debuff c.player
  let c := { c with player := r.1 }
  if r.2.2 then
    let lacerate_end := t + 15
    let c :=
      if c.lacerate_debuff then
        { c with lacerate_end := lacerate_end
                 lacerate_ticks := c.lacerate_ticks ++
                   arangeQ (lacLastTick c + 3) (lacerate_end + eps) 3
                 lacerate_stacks := min (c.lacerate_stacks + 1) 5 }
      else
        { c with lacerate_end := lacerate_end
                 lacerate_debuff := true
                 lacerate_ticks := arangeQ (t + 3) (t + 16) 3
                 lacerate_stacks := 1 }
    let c := { c with
      lacerate_damage := c.player.lacerate_tick * (c.lacerate_stacks : ℚ) *
        (1 + 0.15 * b2q c.player.enrage)
      lacerate_crit_chance := c.player.crit_chance - 0.04 }
    (c, r.2.1)
  else (c, r.2.1)

/-- `Simulation.rip`: apply Rip; on success start the bleed with 2-second
ticks over the talent-dependent duration, snapshotting crit chance and
Savage Roar. The initial application does no direct damage. -/
def Simulation.rip (phys : Phys) (t : ℚ) (c : Core) : Core × ℚ :=
  let r := phys.rip c.player
  let c := { c with player := r.1 }
  if r.2.2 then
    ({ c with rip_debuff := true
              rip_start := t
              rip_end := t + r.1.rip_duration
              rip_ticks := arangeQ (t + 2) (t + r.1.rip_duration + eps) 2
              rip_damage := r.2.1
              rip_crit_chance := r.1.crit_chance
              rip_sr_snapshot := r.1.savage_roar }, 0)
  else (c, 0)

/-- `Simulation.shred`: cast Shred; on a hit with Rip active and the Glyph
of Shred equipped, extend Rip by 2 seconds and append one tick, as long as
the current Rip duration is below base duration + 6. -/
def Simulation.shred (phys : Phys) (c : Core) : Core × ℚ :=
  let r := phys.shred c.mangle_debuff c.player
  let c := { c with player := r.1 }
  if r.2.2 ∧ c.rip_debuff ∧ c.player.shred_glyph then
    if c.rip_end - c.rip_start < c.player.rip_duration + 6 then
      ({ c with rip_end := c.rip_end + 2
                rip_ticks := c.rip_ticks ++ [c.rip_end + 2] }, r.2.1)
    else (c, r.2.1)
  else (c, r.2.1)

/-! ## Buff prediction and finisher-timing heuristics -/

/-- `Simulation.berserk_expected_at`: whether Berserk is predicted active
at a future time. -/
def Simulation.berserk_expected_at (c : Core) (current_time future_time : ℚ) :
    Bool :=
  if c.player.berserk then
    decide (future_time < c.berserk_end) ||
      decide (current_time + c.player.berserk_cd < future_time)
  else if eps < c.player.berserk_cd then
    decide (current_time + c.player.berserk_cd < future_time)
  else if c.params.tigers_fury && c.strategy.use_berserk then
    decide (c.tf_end < future_time)
  else false

/-- `Simulation.tf_expected_before`: whether a Tigers Fury use is predicted
before a future time. -/
def Simulation.tf_expected_before (c : Core) (current_time future_time : ℚ) :
    Bool :=
  if eps < c.player.tf_cd then
    decide (current_time + c.player.tf_cd < future_time)
  else if c.player.berserk then decide (c.berserk_end < future_time)
  else true

/-- `Simulation.get_finisher_costs`: expected Energy cost of the future Rip
refresh, a Ferocious Bite cast right now, and a Savage Roar refresh. -/
def Simulation.get_finisher_costs (c : Core) (t : ℚ) : ℚ × ℚ × ℚ :=
  let rip_end := if ¬c.rip_debuff then t else c.rip_end
  let ripcost : ℚ := if Simulation.berserk_expected_at c t rip_end then 15 else 30
  let bitecost := if c.player.bite_cost ≤ c.player.energy then
      min (c.player.bite_cost + 30) c.player.energy
    else c.player.bite_cost + 10 * c.latency
  let sr_end := if ¬c.player.savage_roar then t else c.roar_end
  let srcost : ℚ := if Simulation.berserk_expected_at c t sr_end then 12.5 else 25
  (ripcost, bitecost, srcost)

/-- `Simulation.calc_allowed_rip_downtime`: break-even model for how much
Rip and Savage Roar uptime may be traded for a Ferocious Bite. -/
def Simulation.calc_allowed_rip_downtime (phys : Phys) (c : Core) (t : ℚ) :
    ℚ × ℚ :=
  let rip_cp := c.strategy.min_combos_for_rip
  let bite_cp := c.strategy.min_combos_for_bite
  let costs := Simulation.get_finisher_costs c t
  let rip_cost := costs.1
  let bite_cost := costs.2.1
  let crit_factor := phys.calc_crit_multiplier c.player - 1
  let bite_base_dmg :=
    0.5 * (getQ c.player.bite_low bite_cp + getQ c.player.bite_high bite_cp)
  let bite_bonus_dmg := (bite_cost - c.player.bite_cost) *
    (9.4 + c.player.attack_power / 410) * c.player.bite_multiplier
  let bite_dpc := (bite_base_dmg + bite_bonus_dmg) *
    (1 + crit_factor * (c.player.crit_chance + 0.25))
  let crit_mod := crit_factor * c.player.crit_chance
  let avg_rip_tick := getQ c.player.rip_tick rip_cp * 1.3 *
    (1 + crit_mod * b2q c.player.primal_gore)
  let shred_dpc :=
    0.5 * (c.player.shred_low + c.player.shred_high) * 1.3 * (1 + crit_mod)
  let allowed_rip_downtime :=
    (bite_dpc - (bite_cost - rip_cost) * shred_dpc / 42) / avg_rip_tick * 2
  let cpe := (42 * bite_dpc / shred_dpc - 35) / 5
  let srep1 := (1 - 5) * (cpe - 125 / 34)
  let srep2 := (2 - 5) * (cpe - 125 / 34)
  let srep_avg := c.player.crit_chance * srep2 +
    (1 - c.player.crit_chance) * srep1
  let rake_dpc := 1.3 * (c.player.rake_hit * (1 + crit_mod) +
    3 * c.player.rake_tick * (1 + crit_mod * b2q c.player.primal_gore))
  let allowed_sr_downtime :=
    (bite_dpc - shred_dpc / 42 * min (min srep_avg srep1) srep2) /
      (0.33 / 1.33 * rake_dpc)
  (allowed_rip_downtime, allowed_sr_downtime)

/-- `Simulation.can_bite_analytical`: first-principles projection of Energy
income versus the effective cost of a Ferocious Bite now. -/
def Simulation.can_bite_analytical (phys : Phys) (c : Core) (t : ℚ) : Bool :=
  let maxripdur := c.player.rip_duration + 6 * b2q c.player.shred_glyph
  let ripdur := c.rip_start + maxripdur - t
  let srdur := c.roar_end - t
  let mindur := min ripdur srdur
  let maxdur := max ripdur srdur
  let egmin := 10 * mindur
  let egmax := 10 * maxdur
  let egmin := if Simulation.tf_expected_before c t (t + mindur) then
    egmin + 60 else egmin
  let egmax := if Simulation.tf_expected_before c t (t + maxdur) then
    egmax + 60 else egmax
  let egmin := if c.player.omen then
    egmin + mindur / c.swing_timer * (3.5 / 60 * (1 - c.player.miss_chance) * 42)
    else egmin
  let egmax := if c.player.omen then
    egmax + maxdur / c.swing_timer * (3.5 / 60 * (1 - c.player.miss_chance) * 42)
    else egmax
  let egmin := egmin + mindur / c.revitalize_frequency * 0.15 * 8
  let egmax := egmax + maxdur / c.revitalize_frequency * 0.15 * 8
  let total_energy_min := c.player.energy + egmin
  let total_energy_max := c.player.energy + egmax
  let costs := Simulation.get_finisher_costs c t
  let ripcost := costs.1
  let bitecost := costs.2.1
  let srcost := costs.2.2
  let cp_per_builder := 1 + c.player.crit_chance
  let cost_per_builder := (42 + 42 + 35) / 3 * (1 + 0.2 * c.player.miss_chance)
  let ns := if srdur < ripdur then (srcost, (5 : ℚ)) else (ripcost, 1)
  let total_energy_cost_min :=
    bitecost + 5 / cp_per_builder * cost_per_builder + ns.1
  let total_energy_cost_max :=
    bitecost + (5 + ns.2) / cp_per_builder * cost_per_builder + ripcost + srcost
  let dts := Simulation.calc_allowed_rip_downtime phys c t
  let rip_downtime := maxripdur * (1 - 1 / (1 + dts.1 / maxripdur))
  let sr_downtime := 34 * (1 - 1 / (1 + dts.2 / 34))
  let next_downtime := if srdur < ripdur then sr_downtime else rip_downtime
  let total_energy_cost_min := total_energy_cost_min - 10 * next_downtime
  let total_energy_cost_max :=
    total_energy_cost_max - 10 * min rip_downtime sr_downtime
  decide (total_energy_cost_min < total_energy_min) &&
    decide (total_energy_cost_max < total_energy_max)

/-- `Simulation.can_bite`: empirical fixed-margin test when `bite_time` is
set, else the analytical model. -/
def Simulation.can_bite (phys : Phys) (c : Core) (t : ℚ) : Bool :=
  match c.strategy.bite_time with
  | some bite_time =>
    decide (bite_time ≤ c.rip_end - t) && decide (bite_time ≤ c.roar_end - t)
  | none => Simulation.can_bite_analytical phys c t

/-- `Simulation.clip_roar`: whether to clip the active Savage Roar to
de-sync the Rip and Roar timers. -/
def Simulation.clip_roar (c : Core) (t : ℚ) : Bool :=
  if ¬c.rip_debuff ∨ c.fight_length - c.rip_end < 10 then false
  else
    let max_rip_dur := c.player.rip_duration + 6 * b2q c.player.shred_glyph
    let rip_end := c.rip_start + max_rip_dur
    if rip_end < c.roar_end then false
    else
      let new_roar_dur := getQ c.player.roar_durations c.player.combo_points
      let new_roar_end := t + new_roar_dur
      decide (rip_end + c.strategy.min_roar_offset ≤ new_roar_end)

/-! ## Swing timer and timed-buff transitions -/

/-- `Simulation.update_swing_times`: regenerate the future swing schedule
after a swing-timer change (or at fight start with `first_swing`). -/
def Simulation.update_swing_times (t new_swing_timer : ℚ) (first_swing : Bool)
    (c : Core) : Core :=
  let start_time := if first_swing then t
    else t + (headQ c.swing_times - t) / c.swing_timer * new_swing_timer
  let c := { c with swing_timer := new_swing_timer }
  if c.fight_length - new_swing_timer < start_time then
    { c with swing_times := [start_time, start_time + new_swing_timer] }
  else
    { c with swing_times :=
        arangeQ start_time (c.fight_length + new_swing_timer) new_swing_timer }

/-- `Simulation.apply_tigers_fury`: 60 Energy (capped at 100), damage
parameters re-derived, 6-second buff, 30-second cooldown, decision point
scheduled after latency, proc window recorded. -/
def Simulation.apply_tigers_fury (phys : Phys) (t : ℚ) (c : Core) :
    Core × List LogLine :=
  let c := { c with player :=
    { c.player with energy := min 100 (c.player.energy + 60) } }
  let c := { c with params := { c.params with tigers_fury := true } }
  let c := { c with player := phys.calc_damage_params c.params c.player }
  let c := { c with tf_end := t + 6
                    player := { c.player with tf_cd := 30 }
                    next_action := t + c.latency }
  let c := { c with proc_end_times := sortQ (c.proc_end_times ++ [t + 30]) }
  (c, [Simulation.gen_log c t "Tigers Fury" "applied"])

/-- `Simulation.drop_tigers_fury`. -/
def Simulation.drop_tigers_fury (phys : Phys) (t : ℚ) (c : Core) :
    Core × List LogLine :=
  let c := { c with params := { c.params with tigers_fury := false } }
  let c := { c with player := phys.calc_damage_params c.params c.player }
  (c, [Simulation.gen_log c t "Tigers Fury" "falls off"])

/-- `Simulation.apply_berserk`. -/
def Simulation.apply_berserk (phys : Phys) (t : ℚ) (prepop : Bool) (c : Core) :
    Core × List LogLine :=
  let c := { c with player := { c.player with berserk := true } }
  let c := { c with player := phys.set_ability_costs c.player }
  let c := { c with player :=
    { c.player with gcd := if prepop then 0 else 1 } }
  let c := { c with berserk_end := t + 15 + 5 * b2q c.player.berserk_glyph }
  let c := { c with player := { c.player with berserk_cd := 180 - b2q prepop } }
  (c, [Simulation.gen_log c t "Berserk" "applied"])

/-- `Simulation.drop_berserk`. -/
def Simulation.drop_berserk (phys : Phys) (t : ℚ) (c : Core) :
    Core × List LogLine :=
  let c := { c with player := { c.player with berserk := false } }
  let c := { c with player := phys.set_ability_costs c.player }
  (c, [Simulation.gen_log c t "Berserk" "falls off"])

/-- `Simulation.apply_bleed_damage`: one periodic bleed tick: Mangle
modifier, Primal Gore crit roll (via the `sim_utils` collaborator),
breakdown bookkeeping, the Savage Roar snapshot modifier, and
periodic-only proc trinkets. -/
def Simulation.apply_bleed_damage (phys : Phys)
    (base_tick_damage crit_chance : ℚ) (ability_name : String)
    (sr_snapshot : Bool) (t : ℚ) (c : Core) : Core × ℚ × List LogLine :=
  let tick_damage := base_tick_damage * (1 + 0.3 * b2q c.mangle_debuff)
  let tick_damage := if 0 < crit_chance ∧ c.player.primal_gore then
      phys.calc_yellow tick_damage crit_chance
        (phys.calc_crit_multiplier c.player)
    else tick_damage
  let c := { c with player := { c.player with
    dmg_breakdown := brkAdd ability_name tick_damage c.player.dmg_breakdown } }
  let srBrk := brkAdd "Savage Roar" (c.player.roar_fac * tick_damage)
    c.player.dmg_breakdown
  let sr := if sr_snapshot then
      ({ c with player := { c.player with dmg_breakdown := srBrk } },
       tick_damage * (1 + c.player.roar_fac))
    else (c, tick_damage)
  let c := sr.1
  let tick_damage := sr.2
  let es := [LogLine.num t (ability_name ++ " tick") tick_damage
    c.player.energy c.player.combo_points c.player.mana c.player.rage]
  let pr := phys.periodic_procs t c
  (pr.1, tick_damage + pr.2, es)

/-- One pass over `self.trinkets` in registration order: the external
trinkets, the `ArmorDebuffs` controller, then the Rip and Roar uptime
trackers (whose updates return zero damage). -/
def trinketsUpdate (phys : Phys) (t : ℚ) (c : Core) : Core × ℚ × List LogLine :=
  let r1 := phys.ext_update t c
  let c := r1.1
  let r2 := ArmorDebuffs.update phys t c
  let c := r2.1
  let ripT := trkUpdate c.rip_debuff t c.fight_length c.ripTrk
  let c := { c with ripTrk := ripT }
  let roarT := trkUpdate c.player.savage_roar t c.fight_length c.roarTrk
  let c := { c with roarTrk := roarT }
  (c, r1.2 + r2.2.1, r2.2.2)

/-! ## The rotation decision engine (`Simulation.execute_rotation`)

The gate booleans, the pending-refresh queue and the floating-energy
reservation are local variables of the source method; they are hoisted
here into named definitions with identical formulas so that theorems can
refer to them. -/

/-- The Rip gate: enough combo points, Rip not up, enough fight left, no
Clearcasting. -/
def Simulation.rip_now (c : Core) (t : ℚ) : Bool :=
  decide (c.strategy.min_combos_for_rip ≤ c.player.combo_points) &&
  !c.rip_debuff && decide ((10 : ℚ) ≤ c.fight_length - t) &&
  !c.player.omen_proc

/-- The end-of-fight Bite condition. -/
def Simulation.bite_at_end (c : Core) (t : ℚ) : Bool :=
  decide (c.strategy.min_combos_for_bite ≤ c.player.combo_points) &&
  (decide (c.fight_length - t < 10) ||
   (c.rip_debuff && decide (c.fight_length - c.rip_end < 10)))

/-- The Mangle gate: not about to Rip and the debuff is down. -/
def Simulation.mangle_now (c : Core) (t : ℚ) : Bool :=
  !Simulation.rip_now c t && !c.mangle_debuff

/-- The Bite gate, including the Berserk energy-threshold override. -/
def Simulation.bite_now (phys : Phys) (c : Core) (t : ℚ) : Bool :=
  let bite_before_rip :=
    decide (c.strategy.min_combos_for_bite ≤ c.player.combo_points) &&
    c.rip_debuff && c.player.savage_roar && c.strategy.use_bite &&
    Simulation.can_bite phys c t
  let bn := (bite_before_rip || Simulation.bite_at_end c t) &&
    !c.player.omen_proc
  if bn && c.player.berserk then
    decide (c.player.energy ≤ c.strategy.berserk_bite_thresh) else bn

/-- The Rake gate. -/
def Simulation.rake_now (c : Core) (t : ℚ) : Bool :=
  c.strategy.use_rake && !c.rake_debuff &&
  decide ((9 : ℚ) < c.fight_length - t) && !c.player.omen_proc

/-- The Berserk gate. -/
def Simulation.berserk_now (c : Core) : Bool :=
  c.strategy.use_berserk && decide (c.player.berserk_cd < eps) &&
  decide (15 + 5 * b2q c.player.berserk_glyph < c.player.tf_cd)

/-- The Savage Roar gate: a combo point and either no Roar up or a
beneficial clip. -/
def Simulation.roar_now (c : Core) (t : ℚ) : Bool :=
  decide (1 ≤ c.player.combo_points) &&
  (!c.player.savage_roar || Simulation.clip_roar c t)

/-- Whether a Rip refresh is queued among the pending actions. -/
def Simulation.rip_refresh_pending (c : Core) : Bool :=
  c.rip_debuff && decide (c.rip_end < c.fight_length - 10)

/-- The pending-refresh queue of (due time, energy cost) pairs, appended
in source order (Rip, Rake, Mangle, Roar) and then sorted. -/
def Simulation.pending_actions (c : Core) (t : ℚ) : List (ℚ × ℚ) :=
  let pending := if Simulation.rip_refresh_pending c then
      [(c.rip_end, if Simulation.berserk_expected_at c t c.rip_end
        then (15 : ℚ) else 30)]
    else []
  let pending := if c.rake_debuff && decide (c.rake_end < c.fight_length - 9)
    then pending ++ [(c.rake_end,
      if Simulation.berserk_expected_at c t c.rake_end then (17.5 : ℚ)
      else 35)]
    else pending
  let pending := if c.mangle_debuff && eLt c.mangle_end (c.fight_length - 1)
    then pending ++ [(c.mangle_end.getD 0,
      if Simulation.berserk_expected_at c t (c.mangle_end.getD 0)
      then 0.5 * c.player.mangle_cost_base else c.player.mangle_cost_base)]
    else pending
  let pending := if c.player.savage_roar then
    pending ++ [(c.roar_end,
      if Simulation.berserk_expected_at c t c.roar_end then (12.5 : ℚ)
      else 25)]
    else pending
  sortPairs pending

/-- The floating-energy reservation walk over the pending queue. -/
def Simulation.floating_energy (c : Core) (t : ℚ) : ℚ :=
  ((Simulation.pending_actions c t).foldl (fun (a : ℚ × ℚ) pr =>
    let delta_t := pr.1 - a.2
    if delta_t < pr.2 / 10 then (a.1 + pr.2 - 10 * delta_t, pr.1)
    else (a.1, a.2 + pr.2 / 10)) (0, t)).1

/-- Energy in excess of the floating reservation. -/
def Simulation.excess_e (c : Core) (t : ℚ) : ℚ :=
  c.player.energy - Simulation.floating_energy c t

/-- The Furor energy cap on powershifting. -/
def Simulation.furor_cap (c : Core) : ℚ :=
  min (20 * (c.player.furor : ℚ)) 85

/-- The bearweave gate, including the Tiger's Fury override. -/
def Simulation.bearweave_now (c : Core) (t : ℚ) : Bool :=
  let weave_energy := Simulation.furor_cap c - 30 - 20 * c.latency
  let weave_energy := if 3 < c.player.furor then weave_energy - 15
    else weave_energy
  let weave_end := t + 4.5 + 2 * c.latency
  let bw := c.strategy.bearweave && decide (c.player.energy ≤ weave_energy) &&
    !c.player.omen_proc &&
    (!Simulation.rip_refresh_pending c || decide (weave_end ≤ c.rip_end)) &&
    !c.player.berserk
  if bw && !c.strategy.lacerate_prio then
    !Simulation.tf_expected_before c t weave_end else bw

/-- The emergency bearweave gate for Lacerate maintenance. -/
def Simulation.emergency_bearweave (c : Core) (t : ℚ) : Bool :=
  c.strategy.bearweave && c.strategy.lacerate_prio && c.lacerate_debuff &&
  decide (c.lacerate_end - t < 2.5 + c.latency) &&
  decide (c.lacerate_end < c.fight_length)

/-- The shared tail of `execute_rotation` when no cast was made: the next
decision time is the wait time capped by the earliest pending refresh, plus
input latency. -/
def rotationWait (t tna : ℚ) (pending : List (ℚ × ℚ)) (c : Core) : Core :=
  let next_action := t + tna
  let next_action := match pending with
    | [] => next_action
    | p :: _ => min next_action p.1
  { c with next_action := next_action + c.latency }

/-- `Simulation.execute_rotation`: the rotation decision engine. Branches
that cast return immediately (left injection); branches that merely wait
fall through to `rotationWait` (right injection carries the wait time). -/
def Simulation.execute_rotation (phys : Phys) (t : ℚ) (c : Core) :
    Core × ℚ × List LogLine :=
  if c.player.ready_to_shift then
    let c := { c with player := phys.shift t false c.player }
    let c := if c.player.mana < 0 ∧
        (c.time_to_oom = none ∨ c.time_to_oom = some 0) then
      { c with time_to_oom := some t } else c
    let swing_fac : ℚ := if c.player.cat_form then 1 / 2.5 else 2.5
    let c := Simulation.update_swing_times (headQ c.swing_times)
      (c.swing_timer * swing_fac) true c
    (c, 0, [])
  else
    let energy := c.player.energy
    let rip_now := Simulation.rip_now c t
    let mangle_now := Simulation.mangle_now c t
    let mangle_cost := c.player.mangle_cost
    let bite_now := Simulation.bite_now phys c t
    let rake_now := Simulation.rake_now c t
    let berserk_now := Simulation.berserk_now c
    let roar_now := Simulation.roar_now c t
    let pending := Simulation.pending_actions c t
    let rip_refresh_pending := Simulation.rip_refresh_pending c
    let furor_cap := Simulation.furor_cap c
    let bearweave_now := Simulation.bearweave_now c t
    let emergency_bearweave := Simulation.emergency_bearweave c t
    let excess_e := Simulation.excess_e c t
    let branch : (Core × ℚ × List LogLine) ⊕ (Core × ℚ) :=
      if !c.player.cat_form then
        let shift_now := decide (furor_cap < energy + 15 + 10 * c.latency) ||
          (rip_refresh_pending && decide (c.rip_end < t + 3))
        let shift_next := decide (furor_cap < energy + 30 + 10 * c.latency) ||
          (rip_refresh_pending && decide (c.rip_end < t + 4.5))
        let pw := if c.strategy.powerbear then
            (!shift_now && decide (c.player.rage < 10), shift_now)
          else (false, shift_now || decide (c.player.rage < 10))
        let powerbear_now := pw.1
        let shift_now := pw.2
        let build_lacerate := !c.lacerate_debuff ||
          decide (c.lacerate_stacks < 5)
        let maintain_lacerate := !build_lacerate &&
          decide (c.lacerate_end - t ≤ c.strategy.lacerate_time) &&
          (decide (c.player.rage < 38) || shift_next) &&
          decide (c.lacerate_end < c.fight_length)
        let lacerate_now := c.strategy.lacerate_prio &&
          (build_lacerate || maintain_lacerate)
        let emergency_lacerate := c.strategy.lacerate_prio &&
          c.lacerate_debuff &&
          decide (c.lacerate_end - t < 3 + 2 * c.latency) &&
          decide (c.lacerate_end < c.fight_length)
        let shift_now := if !c.strategy.lacerate_prio || !lacerate_now then
          shift_now || c.player.omen_proc else shift_now
        if emergency_lacerate && decide (13 ≤ c.player.rage) then
          let r := Simulation.lacerate phys t c
          .inl (r.1, r.2, [])
        else if shift_now then
          .inr ({ c with player := { c.player with ready_to_shift := true } }, 0)
        else if powerbear_now then
          .inr ({ c with player := phys.shift t true c.player }, 0)
        else if lacerate_now && decide (13 ≤ c.player.rage) then
          let r := Simulation.lacerate phys t c
          .inl (r.1, r.2, [])
        else if decide (15 ≤ c.player.rage) &&
            decide (c.player.mangle_cd < eps) then
          let r := Simulation.mangle phys t c
          .inl (r.1, r.2, [])
        else if decide (13 ≤ c.player.rage) then
          let r := Simulation.lacerate phys t c
          .inl (r.1, r.2, [])
        else
          .inr (c, headQ c.swing_times - t)
      else if emergency_bearweave then
        .inr ({ c with player := { c.player with ready_to_shift := true } }, 0)
      else if berserk_now then
        let r := Simulation.apply_berserk phys t false c
        .inl (r.1, 0, r.2)
      else if roar_now then
        if c.player.roar_cost ≤ energy then
          let r := phys.roar t c.player
          .inl ({ c with player := r.1, roar_end := r.2 }, 0, [])
        else .inr (c, (c.player.roar_cost - energy) / 10)
      else if rip_now then
        if c.player.rip_cost ≤ energy ∨ c.player.omen_proc then
          let r := Simulation.rip phys t c
          .inl (r.1, r.2, [])
        else .inr (c, (c.player.rip_cost - energy) / 10)
      else if bite_now then
        if c.player.bite_cost ≤ energy then
          let r := phys.bite c.player
          .inl ({ c with player := r.1 }, r.2, [])
        else .inr (c, (c.player.bite_cost - energy) / 10)
      else if rake_now then
        if c.player.rake_cost ≤ energy ∨ c.player.omen_proc then
          let r := Simulation.rake phys t c
          .inl (r.1, r.2, [])
        else .inr (c, (c.player.rake_cost - energy) / 10)
      else if mangle_now then
        if mangle_cost ≤ energy ∨ c.player.omen_proc then
          let r := Simulation.mangle phys t c
          .inl (r.1, r.2, [])
        else .inr (c, (mangle_cost - energy) / 10)
      else if bearweave_now then
        .inr ({ c with player := { c.player with ready_to_shift := true } }, 0)
      else if c.strategy.mangle_spam && !c.player.omen_proc then
        if mangle_cost ≤ excess_e then
          let r := Simulation.mangle phys t c
          .inl (r.1, r.2, [])
        else .inr (c, (mangle_cost - excess_e) / 10)
      else
        if c.player.shred_cost ≤ excess_e ∨ c.player.omen_proc then
          let r := Simulation.shred phys c
          .inl (r.1, r.2, [])
        else .inr (c, (c.player.shred_cost - excess_e) / 10)
    match branch with
    | .inl res => res
    | .inr wc => (rotationWait t wc.2 pending wc.1, 0, [])

/-! ## The event clock and main loop (`Simulation.run`) -/

/-- The per-event output samples accumulated by `run`. -/
structure Acc where
  times : List ℚ
  damage : List ℚ
  energy : List ℚ
  combos : List ℕ

/-- One pass of the `run` loop body at event time `t` (previous event at
`pt`, `hot` Revitalize roll windows elapsed): resource regeneration,
cooldown decrements, expiries, bleed ticks, Revitalize, trinkets, the
melee swing, the rotation, and automatic Tigers Fury, in the source's
order. Returns the new state, damage done this step, the updated roll
counter, and the would-be combat-log entries. -/
def stepBody (phys : Phys) (t pt : ℚ) (hot : ℕ) (c : Core) :
    Core × ℚ × ℕ × List LogLine :=
  let delta_t := t - pt
  let c := { c with player := phys.regen delta_t c.player }
  let dmg : ℚ := 0
  let c := { c with player := { c.player with
    gcd := max 0 (c.player.gcd - delta_t)
    omen_icd := max 0 (c.player.omen_icd - delta_t)
    rune_cd := max 0 (c.player.rune_cd - delta_t)
    tf_cd := max 0 (c.player.tf_cd - delta_t)
    berserk_cd := max 0 (c.player.berserk_cd - delta_t)
    enrage_cd := max 0 (c.player.enrage_cd - delta_t)
    mangle_cd := max 0 (c.player.mangle_cd - delta_t) } }
  let c := if c.player.five_second_rule ∧ 5 ≤ t - c.player.last_shift then
    { c with player := { c.player with five_second_rule := false } } else c
  let r1 := if c.params.tigers_fury ∧ c.tf_end ≤ t then
    Simulation.drop_tigers_fury phys c.tf_end c else (c, [])
  let c := r1.1
  let r2 := if c.player.berserk ∧ c.berserk_end ≤ t then
    Simulation.drop_berserk phys c.berserk_end c else (c, [])
  let c := r2.1
  let r3 := if c.mangle_debuff ∧ eLe c.mangle_end t then
    ({ c with mangle_debuff := false },
     [Simulation.gen_log c (c.mangle_end.getD 0) "Mangle" "falls off"])
    else (c, [])
  let c := r3.1
  let r4 := if c.player.savage_roar ∧ c.roar_end ≤ t then
    ({ c with player := { c.player with savage_roar := false } },
     [Simulation.gen_log c c.roar_end "Savage Roar" "falls off"])
    else (c, [])
  let c := r4.1
  let r5 := if c.rip_debuff && dueHead c.rip_ticks t then
      let b := Simulation.apply_bleed_damage phys c.rip_damage
        c.rip_crit_chance "Rip" c.rip_sr_snapshot t c
      ({ b.1 with rip_ticks := b.1.rip_ticks.tail }, b.2.1, b.2.2)
    else (c, 0, [])
  let c := r5.1
  let dmg := dmg + r5.2.1
  let r6 := if c.rip_debuff ∧ c.rip_end - eps < t then
    ({ c with rip_debuff := false },
     [Simulation.gen_log c c.rip_end "Rip" "falls off"]) else (c, [])
  let c := r6.1
  let r7 := if c.rake_debuff && dueHead c.rake_ticks t then
      let b := Simulation.apply_bleed_damage phys c.rake_damage 0 "Rake"
        c.rake_sr_snapshot t c
      ({ b.1 with rake_ticks := b.1.rake_ticks.tail }, b.2.1, b.2.2)
    else (c, 0, [])
  let c := r7.1
  let dmg := dmg + r7.2.1
  let r8 := if c.rake_debuff ∧ c.rake_end - eps < t then
    ({ c with rake_debuff := false },
     [Simulation.gen_log c c.rake_end "Rake" "falls off"]) else (c, [])
  let c := r8.1
  let r9 := if c.lacerate_debuff && dueHead c.lacerate_ticks t then
      let c0 := { c with last_lacerate_tick := t }
      let b := Simulation.apply_bleed_damage phys c0.lacerate_damage
        c0.lacerate_crit_chance "Lacerate" false t c0
      ({ b.1 with lacerate_ticks := b.1.lacerate_ticks.tail }, b.2.1, b.2.2)
    else (c, 0, [])
  let c := r9.1
  let dmg := dmg + r9.2.1
  let r10 := if c.lacerate_debuff ∧ c.lacerate_end - eps < t then
    ({ c with lacerate_debuff := false },
     [Simulation.gen_log c c.lacerate_end "Lacerate" "falls off"])
    else (c, [])
  let c := r10.1
  let r11 :=
    if c.revitalize_frequency * ((hot : ℚ) + 1) ≤ t then
      let d := Core.draw c
      let c2 := d.2
      if d.1 < 0.15 then
        let c3 := if c2.player.cat_form then
            { c2 with player :=
              { c2.player with energy := min 100 (c2.player.energy + 8) } }
          else
            { c2 with player :=
              { c2.player with rage := min 100 (c2.player.rage + 4) } }
        (c3, hot + 1, [Simulation.gen_log c3 t "Revitalize" "applied"])
      else (c2, hot + 1, [])
    else (c, hot, [])
  let c := r11.1
  let hot := r11.2.1
  let r12 := trinketsUpdate phys t c
  let c := r12.1
  let dmg := dmg + r12.2.1
  let r13 := if ¬c.player.cat_form ∧ c.player.enrage_cd < eps ∧
      t < c.player.last_shift + 1.5 + eps then
    let c2 := { c with player := { c.player with
      rage := min 100 (c.player.rage + 20), enrage := true, enrage_cd := 60 } }
    (c2, [Simulation.gen_log c2 t "Enrage" "applied"])
    else (c, [])
  let c := r13.1
  let r14 :=
    if dueHeadEq c.swing_times t then
      let sw :=
        if c.player.cat_form then phys.swing c.player
        else
          let furor_cap := min (20 * (c.player.furor : ℚ)) 85
          let rip_refresh_pending := c.rip_debuff &&
            decide (c.rip_end < c.fight_length - 10)
          let energy_leeway := furor_cap - 15 - 10 * (c.player.gcd + c.latency)
          let shift_next := decide (energy_leeway < c.player.energy)
          let shift_next := if rip_refresh_pending then
            shift_next || decide (c.rip_end < t + c.player.gcd + 3)
            else shift_next
          let gates :=
            if c.strategy.lacerate_prio then
              let lacerate_leeway := c.player.gcd + c.strategy.lacerate_time
              let lacerate_next := !c.lacerate_debuff ||
                decide (c.lacerate_stacks < 5) ||
                decide (c.lacerate_end - t ≤ lacerate_leeway)
              let emergency_leeway := c.player.gcd + 3 + 2 * c.latency
              let emergency_lacerate_next := c.lacerate_debuff &&
                decide (c.lacerate_end - t ≤ emergency_leeway)
              let mangle_next := !lacerate_next && (!c.mangle_debuff ||
                eLt c.mangle_end (t + c.player.gcd + 3))
              (lacerate_next, emergency_lacerate_next, mangle_next)
            else
              (c.lacerate_debuff && (decide (c.lacerate_stacks < 5) ||
                 decide (c.lacerate_end < t + c.player.gcd + 4.5)),
               false,
               decide (c.player.mangle_cd < c.player.gcd))
          let maul_rage_thresh : ℚ :=
            if gates.2.1 then 23
            else if shift_next then 10
            else if gates.2.2 then 25
            else if gates.1 then 23
            else 10
          if maul_rage_thresh ≤ c.player.rage then
            phys.maul c.mangle_debuff c.player
          else phys.swing c.player
      let c2 := { c with player := sw.1, swing_times := c.swing_times.tail }
      let es := [LogLine.playerEv t (c2.player.combat_log.getD [])]
      let c3 := if c2.player.omen_proc then
        { c2 with next_action := t + c2.latency } else c2
      (c3, sw.2, es)
    else (c, 0, [])
  let c := r14.1
  let dmg := dmg + r14.2.1
  let c := { c with player := { c.player with combat_log := none } }
  let r15 := if c.player.gcd < eps ∧ c.next_action ≤ t then
    Simulation.execute_rotation phys t c else (c, 0, [])
  let c := r15.1
  let dmg := dmg + r15.2.1
  let es16 := match c.player.combat_log with
    | some payload => [LogLine.playerEv t payload]
    | none => []
  let r17 := if c.params.tigers_fury ∧ c.player.gcd = 1.5 then
    Simulation.drop_tigers_fury phys t c else (c, [])
  let c := r17.1
  let r18 := trinketsUpdate phys t c
  let c := r18.1
  let dmg := dmg + r18.2.1
  let c := if dueHeadEq c.proc_end_times t then
    { c with proc_end_times := c.proc_end_times.tail } else c
  let leeway_time := max c.player.gcd c.latency
  let tf_energy_thresh := 40 - 10 * (leeway_time + b2q c.player.omen_proc)
  let tf_now := decide (c.player.energy < tf_energy_thresh) &&
    decide (c.player.tf_cd < eps) && !c.player.berserk && c.player.cat_form
  let r19 := if tf_now then Simulation.apply_tigers_fury phys t c else (c, [])
  let c := r19.1
  (c, dmg, hot,
   r1.2 ++ r2.2 ++ r3.2 ++ r4.2 ++ r5.2.2 ++ r6.2 ++ r7.2.2 ++ r8.2 ++
   r9.2.2 ++ r10.2 ++ r11.2.2 ++ r12.2.2 ++ r13.2 ++ r14.2.2 ++ r15.2.2 ++
   es16 ++ r17.2 ++ r18.2.2 ++ r19.2)

/-- The next event time: minimum over next swing, next decision readiness,
due bleed ticks and proc expiries (`run` lines after the output append). -/
def advanceTime (c : Core) (t : ℚ) : ℚ :=
  let next_swing := headQ c.swing_times
  let next_action := max (t + c.player.gcd) c.next_action
  let t2 := min next_action next_swing
  let t2 := if c.rip_debuff then
      match c.rip_ticks with
      | x :: _ => min t2 x
      | [] => t2
    else t2
  let t2 := if c.rake_debuff then
      match c.rake_ticks with
      | x :: _ => min t2 x
      | [] => t2
    else t2
  let t2 := if c.lacerate_debuff then
      match c.lacerate_ticks with
      | x :: _ => min t2 x
      | [] => t2
    else t2
  match c.proc_end_times with
  | x :: _ => min t2 x
  | [] => t2

/-- The main `while time <= fight_length` loop, fuel-bounded. The
conditional combat-log accumulation (`if self.log: append`) is the only
place the `log` flag is consulted. -/
def runLoop (phys : Phys) (fuel : ℕ) (t pt : ℚ) (hot : ℕ) (c : Core)
    (acc : Acc) (log : Bool) (cl : List LogLine) : Core × Acc × List LogLine :=
  match fuel with
  | 0 => (c, acc, cl)
  | fuel + 1 =>
    if c.fight_length < t then (c, acc, cl)
    else
      let r := stepBody phys t pt hot c
      let acc2 : Acc := ⟨acc.times ++ [t], acc.damage ++ [r.2.1],
        acc.energy ++ [r.1.player.energy],
        acc.combos ++ [r.1.player.combo_points]⟩
      runLoop phys fuel (advanceTime r.1 t) t r.2.2.1 r.1 acc2 log
        (cl ++ if log then r.2.2.2 else [])

/-- The reset section at the top of `Simulation.run`: fresh player and
debuff state, randomized first-swing offset, trinket resets, the bear-tank
Mangle flag, optional Berserk pre-pop and Clearcasting pre-proc. -/
def Simulation.preamble (phys : Phys) (c : Core) : Core × List LogLine :=
  let freshParams := { c.params with tigers_fury := false }
  let c := { c with player := phys.reset c.player
                    mangle_debuff := false
                    rip_debuff := false
                    rake_debuff := false
                    lacerate_debuff := false
                    params := freshParams
                    next_action := 0 }
  let d := Core.draw c
  let c := Simulation.update_swing_times (0.1 * d.1) d.2.player.swing_timer
    true d.2
  let c := { c with proc_end_times := [] }
  let c := phys.ext_reset c
  let c := { c with params := { c.params with sunder := 0 } }
  let c := { c with ripTrk := TrkState.reset, roarTrk := TrkState.reset }
  let c := if c.strategy.bear_mangle then
    { c with mangle_debuff := true, mangle_end := none } else c
  let do_prepop := c.strategy.use_berserk && c.strategy.prepop_berserk
  let r := if do_prepop then
    Simulation.apply_berserk phys (-1) true c else (c, [])
  let c := r.1
  let c := if c.strategy.preproc_omen ∧ c.player.omen then
    { c with player := { c.player with omen_proc := true } } else c
  let c := { c with time_to_oom := none }
  (c, r.2)

/-- The consolidation section at the bottom of `Simulation.run`: one final
trinket update at the exact fight end, forced deactivation of still-active
trackers, and the aura-statistics rows (external proc trinkets first, then
the Rip and Roar trackers; the `ArmorDebuffs` controller carries no
`proc_name` and is skipped). -/
def Simulation.finalize (phys : Phys) (c : Core) :
    Core × List (String × ℚ × ℚ) × List LogLine :=
  let r := trinketsUpdate phys c.fight_length c
  let c := r.1
  let c := if c.ripTrk.active then
    { c with ripTrk := { c.ripTrk with active := false } } else c
  let c := if c.roarTrk.active then
    { c with roarTrk := { c.roarTrk with active := false } } else c
  let rows := phys.ext_aura c ++
    [("Rip", (c.ripTrk.num_procs : ℚ), c.ripTrk.uptime),
     ("Savage Roar", (c.roarTrk.num_procs : ℚ), c.roarTrk.uptime)]
  (c, rows, r.2.2)

/-- The outputs of `Simulation.run`: the per-event samples, the damage
breakdown, the aura statistics, the resource-exhaustion timestamp, and
(when logging) the combat log. -/
structure RunOut where
  times : List ℚ
  damage : List ℚ
  energy : List ℚ
  combos : List ℕ
  dmg_breakdown : Brk
  aura_stats : List (String × ℚ × ℚ)
  time_to_oom : Option ℚ
  combat_log : List LogLine

/-- Everything `run` outputs apart from the combat log. -/
def RunOut.observables (o : RunOut) :
    List ℚ × List ℚ × List ℚ × List ℕ × Brk ×
      List (String × ℚ × ℚ) × Option ℚ :=
  (o.times, o.damage, o.energy, o.combos, o.dmg_breakdown, o.aura_stats,
   o.time_to_oom)

/-- `Simulation.run`: one full simulated fight. -/
def Simulation.run (phys : Phys) (fuel : ℕ) (c : Core) (log : Bool) : RunOut :=
  let pre := Simulation.preamble phys c
  let lp := runLoop phys fuel 0 0 0 pre.1 ⟨[], [], [], []⟩ log
    (if log then pre.2 else [])
  let fin := Simulation.finalize phys lp.1
  { times := lp.2.1.times
    damage := lp.2.1.damage
    energy := lp.2.1.energy
    combos := lp.2.1.combos
    dmg_breakdown := fin.1.player.dmg_breakdown
    aura_stats := fin.2.1
    time_to_oom := fin.1.time_to_oom
    combat_log := lp.2.2 ++ if log then fin.2.2 else [] }

/-- Modelled from the spec: the numpy global random generator that
`iterate` reseeds on every call with `np.random.seed()` (no argument, OS
entropy), making the subsequent draws a function of that ambient entropy
alone. The head of the stream stands for the `np.random.randn()`
fight-length jitter. -/
def rngStream (entropy : ℕ) : List ℚ :=
  [(entropy : ℚ), 0, 0, 0]

/-- `Simulation.iterate`: one replicate with a randomized fight length.
The source signature is `iterate(self, *args)`: the iteration index that
`pool.imap` passes in is accepted and ignored, and the generator is
reseeded from ambient entropy instead. -/
def Simulation.iterate (phys : Phys) (fuel : ℕ) (c : Core) (_arg : ℕ)
    (entropy : ℕ) : ℚ × Brk × List (String × ℚ × ℚ) × ℚ :=
  let c := { c with rng := rngStream entropy }
  let d := Core.draw c
  let c := d.2
  let base_fight_length := c.fight_length
  let randomized_fight_length := base_fight_length + d.1
  let c := { c with fight_length := randomized_fight_length }
  let out := Simulation.run phys fuel c false
  let avg_dps := out.damage.sum / randomized_fight_length
  let oom_time := out.time_to_oom.getD randomized_fight_length
  (avg_dps, out.dmg_breakdown, out.aura_stats, oom_time)

/-! ## Concrete instances used by witnesses and counterexamples -/

/-- A minimal concrete player (static attributes at talent-free defaults,
Rip base duration 12 s, standard ability costs). -/
def basePlayer : Player :=
  { energy := 0, combo_points := 0, mana := 0, rage := 0, gcd := 0
    omen_icd := 0, rune_cd := 0, tf_cd := 0, berserk_cd := 0, enrage_cd := 0
    mangle_cd := 0, five_second_rule := false, last_shift := 0
    berserk := false, cat_form := true, savage_roar := false, omen := false
    omen_proc := false, ready_to_shift := false, enrage := false
    berserk_glyph := false, shred_glyph := false, primal_gore := false
    furor := 0, rip_duration := 12, rip_cost := 30, bite_cost := 35
    shred_cost := 42, mangle_cost := 40, mangle_cost_base := 40
    rake_cost := 35, roar_cost := 25
    roar_durations := [9, 14, 19, 24, 29, 34], roar_fac := 0.3
    crit_chance := 0, miss_chance := 0, dodge_chance := 0, attack_power := 0
    agility := 0, ap_mod := 1, armor_pen_rating := 0, bonus_damage := 0
    swing_timer := 1, rip_tick := [0, 0, 0, 0, 0, 0]
    bite_low := [0, 0, 0, 0, 0, 0], bite_high := [0, 0, 0, 0, 0, 0]
    bite_multiplier := 1, shred_low := 0, shred_high := 0, rake_hit := 0
    rake_tick := 0, lacerate_tick := 0, dmg_breakdown := []
    combat_log := none }

/-- `Simulation.default_strategy`. -/
def baseStrategy : Strategy :=
  { min_combos_for_rip := 5, use_rake := false, use_bite := true
    bite_time := some 8, min_combos_for_bite := 5, mangle_spam := false
    bear_mangle := false, use_berserk := false, prepop_berserk := false
    preproc_omen := false, bearweave := false, berserk_bite_thresh := 100
    lacerate_prio := false, lacerate_time := 10, powerbear := false
    min_roar_offset := 10 }

/-- `Simulation.default_params` with `tigers_fury` off. -/
def baseParams : Params :=
  { gift_of_arthas := true, boss_armor := 3731, sunder := 0
    faerie_fire := true, blood_frenzy := false, shattering_throw := false
    tigers_fury := false }

/-- A concrete simulation state at default strategy (Revitalize frequency
as for zero HoT uptime, i.e. effectively never). -/
def baseCore : Core :=
  { player := basePlayer, fight_length := 300, latency := 0.1
    haste_multiplier := 1, revitalize_frequency := 1875000000
    strategy := baseStrategy, params := baseParams, use_sunder := false
    mangle_debuff := false, mangle_end := some 0, rip_debuff := false
    rip_start := 0, rip_end := 0, rip_ticks := [], rip_damage := 0
    rip_crit_chance := 0, rip_sr_snapshot := false, rake_debuff := false
    rake_end := 0, rake_ticks := [], rake_damage := 0
    rake_sr_snapshot := false, lacerate_debuff := false, lacerate_end := 0
    lacerate_ticks := [], lacerate_stacks := 0, lacerate_damage := 0
    lacerate_crit_chance := 0, last_lacerate_tick := 0, tf_end := 0
    berserk_end := 0, roar_end := 0, next_action := 0, swing_timer := 1
    swing_times := [], proc_end_times := [], time_to_oom := none
    ripTrk := TrkState.reset, roarTrk := TrkState.reset, extSt := []
    rng := [] }

/-- A trivial collaborator: every cast misses and every hook is inert. -/
def constPhys : Phys :=
  { reset := id, regen := fun _ p => p, swing := fun p => (p, 0)
    maul := fun _ p => (p, 0), mangle := fun p => (p, 0, false)
    rake := fun _ p => (p, 0, false), lacerate := fun _ p => (p, 0, false)
    rip := fun p => (p, 0, false), shred := fun _ p => (p, 0, false)
    bite := fun p => (p, 0), roar := fun t p => (p, t)
    shift := fun _ _ p => p, calc_damage_params := fun _ p => p
    set_ability_costs := id, calc_crit_multiplier := fun _ => 2
    calc_yellow := fun d _ _ => d, periodic_procs := fun _ c => (c, 0)
    ext_update := fun _ c => (c, 0), ext_reset := id
    ext_aura := fun _ => [] }

/-- Like `constPhys` but every cast lands. -/
def witPhys : Phys :=
  { constPhys with
    mangle := fun p => (p, 0, true), rake := fun _ p => (p, 0, true)
    lacerate := fun _ p => (p, 0, true), rip := fun p => (p, 1, true)
    shred := fun _ p => (p, 0, true) }

/-- The Lacerate refresh scenario of the spec: two stacks, one scheduled
tick at t = 12, active until 15. -/
def c3core : Core :=
  { baseCore with lacerate_debuff := true, lacerate_stacks := 2
                  lacerate_ticks := [12], lacerate_end := 15
                  last_lacerate_tick := 12 }

/-- A state with Rip freshly applied at t = 0 and the Glyph of Shred. -/
def c4core : Core :=
  { baseCore with rip_debuff := true, rip_start := 0, rip_end := 12
                  player := { basePlayer with shred_glyph := true } }

/-- Rotation states for the insufficient-resource analysis: in cat form
with zero combo points, Rip active until `re` (so its refresh is pending),
Mangle active until just before the fight end (so not pending), and the
filler Shred gated by `sc` against energy `e`. -/
def c7family (e sc re : ℚ) : Core :=
  { baseCore with
    player := { basePlayer with energy := e, shred_cost := sc }
    rip_debuff := true, rip_start := 90, rip_end := re
    mangle_debuff := true, mangle_end := some 299.5 }

/-- A rotation state where the Savage Roar gate fires with insufficient
energy: one combo point, no Roar running, energy below the Roar cost. -/
def c7roar : Core :=
  { baseCore with
    player := { basePlayer with energy := 10, combo_points := 1 }
    rip_debuff := true, rip_start := 90, rip_end := 102.5
    mangle_debuff := true, mangle_end := some 299.5 }

/-- A short fight with a slow swing timer, used to evaluate `iterate`
concretely. -/
def c1core : Core :=
  { baseCore with fight_length := 1
                  player := { basePlayer with swing_timer := 10 } }

/-! ## C2: the activity-predicate contract -/

/-- C2 counterexample: constructing a bare `UptimeTracker` is not rejected,
and invoking `update` on it inside the measurement window (here t = 20 of a
100-second fight) reaches the runtime not-implemented fallback: the base
`is_active` returns a `NotImplementedError` value and the update fails,
contradicting the claim that no runtime not-implemented signal is ever
reachable during `update`. -/
theorem base_tracker_update_reachable_failure :
    exceptOk (trackerUpdateE .base 20 100 false false TrkState.reset) =
      false := by
  norm_num [trackerUpdateE, UptimeTracker.is_active, exceptOk, TrkState.reset]

/-- C2 (amended): the variants the `Simulation` constructor actually
registers (`RipTracker`, `RoarTracker`) have implemented activity
predicates, so for them `update` never reaches the not-implemented
fallback; the base class itself is constructible and its fallback is
reachable at runtime rather than rejected at construction. -/
theorem registered_tracker_update_ok (k : TrackerKind)
    (hk : k ∈ simRegisteredTrackerKinds) (t fl : ℚ) (rip_debuff sr : Bool)
    (s : TrkState) :
    exceptOk (trackerUpdateE k t fl rip_debuff sr s) = true := by
  have hk2 : k = .rip ∨ k = .roar := by
    simpa [simRegisteredTrackerKinds] using hk
  rcases hk2 with h | h <;> subst h <;>
    · unfold trackerUpdateE UptimeTracker.is_active exceptOk
      split_ifs <;> rfl

theorem registered_tracker_update_ok_witness :
    (TrackerKind.rip ∈ simRegisteredTrackerKinds) ∧
    exceptOk (trackerUpdateE .rip 20 100 true false TrkState.reset) = true :=
  ⟨by decide,
   registered_tracker_update_ok .rip (by decide) 20 100 true false
     TrkState.reset⟩

/-! ## C9: the uptime-tracker invariant -/

/-- The inductive invariant on a tracker started from `reset`. -/
def TrkInv (s : TrkState) : Prop :=
  0 ≤ s.uptime ∧ s.uptime ≤ 1 ∧ 15 ≤ s.last_update

theorem trkUpdate_inv (a : Bool) (t fl : ℚ) (s : TrkState) (h : TrkInv s) :
    TrkInv (trkUpdate a t fl s) := by
  unfold trkUpdate
  split_ifs with hg
  · obtain ⟨h0, h1, h15⟩ := h
    obtain ⟨hlt, -⟩ := hg
    have ht15 : (0 : ℚ) < t - 15 := by linarith
    have hb0 : (0 : ℚ) ≤ b2q a := by unfold b2q; split <;> norm_num
    have hb1 : b2q a ≤ 1 := by unfold b2q; split <;> norm_num
    refine ⟨?_, ?_, by simpa [trkApply] using by linarith⟩
    · unfold trkApply
      apply div_nonneg _ (le_of_lt ht15)
      have hm : 0 ≤ s.uptime * (s.last_update - 15) :=
        mul_nonneg h0 (by linarith)
      have hd : (0 : ℚ) ≤ (t - s.last_update) * b2q a :=
        mul_nonneg (by linarith) hb0
      linarith
    · unfold trkApply
      rw [div_le_one ht15]
      have hu : s.uptime * (s.last_update - 15) ≤ s.last_update - 15 := by
        nlinarith
      have hd : (t - s.last_update) * b2q a ≤ t - s.last_update := by
        nlinarith
      linarith
  · exact h

theorem trkRun_inv (fl : ℚ) (l : List (ℚ × Bool)) (s : TrkState)
    (h : TrkInv s) : TrkInv (trkRun fl l s) := by
  induction l generalizing s with
  | nil => exact h
  | cons p rest ih => exact ih _ (trkUpdate_inv p.2 p.1 fl s h)

theorem trkRun_never_active (fl : ℚ) (l : List (ℚ × Bool)) (s : TrkState)
    (hu : s.uptime = 0) (hp : ∀ p ∈ l, p.2 = false) :
    (trkRun fl l s).uptime = 0 ∧ (trkRun fl l s).num_procs = s.num_procs := by
  induction l generalizing s with
  | nil => exact ⟨hu, rfl⟩
  | cons p rest ih =>
    have hp2 : p.2 = false := hp p (List.mem_cons_self p rest)
    have step : (trkUpdate p.2 p.1 fl s).uptime = 0 ∧
        (trkUpdate p.2 p.1 fl s).num_procs = s.num_procs := by
      unfold trkUpdate
      split_ifs
      · unfold trkApply
        rw [hp2]
        refine ⟨by simp [hu, b2q], by simp⟩
      · exact ⟨hu, rfl⟩
    have tail := ih (trkUpdate p.2 p.1 fl s) step.1
      (fun q hq => hp q (List.mem_cons_of_mem p hq))
    exact ⟨tail.1, step.2 ▸ tail.2⟩

/-- C9: over any nondecreasing sequence of `update` calls starting from
`reset`, the uptime stays within `[0, 1]` after every update (every
prefix), and if the activity predicate never fires the tracker reports
uptime 0 and zero procs. -/
theorem uptime_tracker_bounds (fl : ℚ) (l : List (ℚ × Bool))
    (hmono : l.Chain' (fun p q => p.1 ≤ q.1)) :
    (∀ l1 l2 : List (ℚ × Bool), l = l1 ++ l2 →
       0 ≤ (trkRun fl l1 TrkState.reset).uptime ∧
       (trkRun fl l1 TrkState.reset).uptime ≤ 1) ∧
    ((∀ p ∈ l, p.2 = false) →
       (trkRun fl l TrkState.reset).uptime = 0 ∧
       (trkRun fl l TrkState.reset).num_procs = 0) := by
  constructor
  · intro l1 l2 _
    have h := trkRun_inv fl l1 TrkState.reset
      ⟨le_refl 0, by norm_num [TrkState.reset], by norm_num [TrkState.reset]⟩
    exact ⟨h.1, h.2.1⟩
  · intro hp
    exact trkRun_never_active fl l TrkState.reset rfl hp

theorem uptime_tracker_bounds_witness :
    ([((20 : ℚ), true), ((30 : ℚ), false)].Chain'
      (fun p q => p.1 ≤ q.1)) ∧
    (0 ≤ (trkRun 100 [((20 : ℚ), true), ((30 : ℚ), false)]
        TrkState.reset).uptime ∧
     (trkRun 100 [((20 : ℚ), true), ((30 : ℚ), false)]
        TrkState.reset).uptime ≤ 1) :=
  ⟨by norm_num [List.chain'_cons],
   (uptime_tracker_bounds 100 [((20 : ℚ), true), ((30 : ℚ), false)]
      (by norm_num [List.chain'_cons])).1
     [((20 : ℚ), true), ((30 : ℚ), false)] [] (by simp)⟩

/-! ## C8: running-average aggregation is the arithmetic mean -/

theorem aggregateGo_eq {κ : Type} (k : κ) :
    ∀ (xs : List (κ → ℚ)) (i : ℕ) (acc : κ → ℚ), 1 ≤ i →
      aggregateGo i acc xs k =
        (acc k * i + (xs.map (fun f => f k)).sum) / ((i : ℚ) + xs.length) := by
  intro xs
  induction xs with
  | nil =>
    intro i acc hi
    have hi0 : ((i : ℚ)) ≠ 0 := Nat.cast_ne_zero.mpr (by omega)
    simp only [aggregateGo, List.map_nil, List.sum_nil, List.length_nil,
      Nat.cast_zero, add_zero]
    rw [mul_div_assoc, div_self hi0, mul_one]
  | cons x rest ih =>
    intro i acc hi
    have hi1 : ((i : ℚ) + 1) ≠ 0 := by positivity
    simp only [aggregateGo]
    rw [ih (i + 1) _ (by omega)]
    simp only [List.map_cons, List.sum_cons, List.length_cons]
    push_cast
    rw [div_mul_cancel₀ _ hi1]
    ring_nf

/-- C8: after consolidating `n ≥ 1` detailed replicate results with the
incremental update `avg = (avg * i + val) / (i + 1)`, every keyed entry
(per-ability casts/damage, per-aura procs/uptime) equals the arithmetic
mean of that entry over the replicates (exact rational arithmetic). -/
theorem aggregate_running_average_is_mean {κ : Type} (rs : List (κ → ℚ))
    (hne : rs ≠ []) (k : κ) :
    aggregateResults rs k = (rs.map (fun f => f k)).sum / rs.length := by
  match rs with
  | [] => exact absurd rfl hne
  | r :: rest =>
    simp only [aggregateResults]
    rw [aggregateGo_eq k rest 1 r (le_refl 1)]
    simp only [List.map_cons, List.sum_cons, List.length_cons]
    push_cast
    ring_nf

/-- A keyed projection used by the C8 witness. -/
def c8r1 : Bool → ℚ := fun _ => 1

/-- A keyed projection used by the C8 witness. -/
def c8r2 : Bool → ℚ := fun _ => 3

theorem aggregate_running_average_is_mean_witness :
    ([c8r1, c8r2] ≠ []) ∧
    aggregateResults [c8r1, c8r2] true =
      (([c8r1, c8r2].map (fun f => f true)).sum) /
        ([c8r1, c8r2] : List (Bool → ℚ)).length :=
  ⟨by simp, aggregate_running_average_is_mean [c8r1, c8r2] (by simp) true⟩

/-! ## C10: calc_deriv restores the player's attributes -/

/-- C10: for every parameter and increment, `calc_deriv` returns the
player's attributes to their pre-call values: the incremented attribute is
reset to the stored original, and the coupled updates (miss chance for
dodge; attack power and crit chance for agility) are undone exactly; no
other attribute is touched by the increment bookkeeping. -/
theorem calc_deriv_restores_attributes (runRep : PlayerAttrs → ℚ)
    (param : StatParam) (increment base_dps : ℚ) (p : PlayerAttrs) :
    (Simulation.calc_deriv runRep param increment base_dps p).2 = p := by
  cases p
  cases param <;>
    simp [Simulation.calc_deriv, getAttr, setAttr]

/-! ## C6: the Roar-clip decision -/

/-- C6: `clip_roar(time)` returns True exactly when Rip is active, at
least 10 seconds of fight remain past `rip_end`, the active Roar ends no
later than the projected (fully glyph-extended) Rip expiry, and a Roar
cast now at the current combo points would end at least
`min_roar_offset` seconds after that projected expiry. -/
theorem clip_roar_characterization (c : Core) (t : ℚ) :
    Simulation.clip_roar c t = true ↔
      (c.rip_debuff = true ∧
       10 ≤ c.fight_length - c.rip_end ∧
       c.roar_end ≤ c.rip_start + c.player.rip_duration +
         6 * b2q c.player.shred_glyph ∧
       c.rip_start + c.player.rip_duration + 6 * b2q c.player.shred_glyph +
         c.strategy.min_roar_offset ≤
         t + getQ c.player.roar_durations c.player.combo_points) := by
  unfold Simulation.clip_roar
  split_ifs with h1
  · simp only [Bool.false_eq_true, false_iff]
    rintro ⟨hr, h10, -, -⟩
    rcases h1 with h | h
    · exact h hr
    · linarith
  · dsimp only
    split_ifs with h2
    · simp only [Bool.false_eq_true, false_iff]
      rintro ⟨-, -, hle, -⟩
      linarith
    · rw [decide_eq_true_eq]
      push_neg at h1
      constructor
      · intro h
        exact ⟨h1.1, h1.2, by linarith [not_lt.mp h2], by linarith⟩
      · rintro ⟨-, -, -, h⟩
        linarith

/-! ## C3: the Lacerate refresh keeps the tick cadence -/

/-- Evaluate `⌈q⌉` from rational bounds (no norm_num extension for the
ceiling is available here). -/
theorem ceilEval {q : ℚ} {n : ℤ} (h1 : (n : ℚ) - 1 < q) (h2 : q ≤ (n : ℚ)) :
    ⌈q⌉ = n :=
  Int.ceil_eq_iff.mpr ⟨h1, h2⟩

/-- The elements of `arangeQ` form an arithmetic progression. -/
theorem arangeQ_getQ (start stop step : ℚ) (i : ℕ)
    (h : i < (arangeQ start stop step).length) :
    getQ (arangeQ start stop step) i = start + step * i := by
  unfold arangeQ at h ⊢
  unfold getQ
  rw [List.getD_eq_getElem _ _ h]
  simp

/-- C3: a successful Lacerate refresh on an active instance appends its new
ticks after the last already-scheduled (or, if none remain, last executed)
tick in a 3-second cadence, increments the stack counter via
`min(stacks + 1, 5)`, and the counter never exceeds 5. -/
theorem lacerate_refresh_extends_cadence (phys : Phys) (t : ℚ) (c : Core)
    (hact : c.lacerate_debuff = true)
    (hs : (phys.lacerate c.mangle_debuff c.player).2.2 = true) :
    (Simulation.lacerate phys t c).1.lacerate_ticks =
      c.lacerate_ticks ++ arangeQ (lacLastTick c + 3) (t + 15 + eps) 3 ∧
    (∀ i : ℕ, i < (arangeQ (lacLastTick c + 3) (t + 15 + eps) 3).length →
      getQ (arangeQ (lacLastTick c + 3) (t + 15 + eps) 3) i =
        lacLastTick c + 3 * ((i : ℚ) + 1)) ∧
    (Simulation.lacerate phys t c).1.lacerate_stacks =
      min (c.lacerate_stacks + 1) 5 ∧
    (Simulation.lacerate phys t c).1.lacerate_stacks ≤ 5 := by
  have harr : ∀ i : ℕ,
      i < (arangeQ (lacLastTick c + 3) (t + 15 + eps) 3).length →
      getQ (arangeQ (lacLastTick c + 3) (t + 15 + eps) 3) i =
        lacLastTick c + 3 * ((i : ℚ) + 1) := by
    intro i hi
    rw [arangeQ_getQ _ _ _ _ hi]
    ring
  have hticks : (Simulation.lacerate phys t c).1.lacerate_ticks =
      c.lacerate_ticks ++ arangeQ (lacLastTick c + 3) (t + 15 + eps) 3 := by
    simp [Simulation.lacerate, hs, hact, lacLastTick]
  have hstacks : (Simulation.lacerate phys t c).1.lacerate_stacks =
      min (c.lacerate_stacks + 1) 5 := by
    simp [Simulation.lacerate, hs, hact]
  exact ⟨hticks, harr, hstacks, hstacks ▸ min_le_right _ _⟩

theorem lacerate_refresh_extends_cadence_witness :
    c3core.lacerate_debuff = true ∧
    (witPhys.lacerate c3core.mangle_debuff c3core.player).2.2 = true ∧
    (Simulation.lacerate witPhys 13 c3core).1.lacerate_ticks =
      c3core.lacerate_ticks ++
        arangeQ (lacLastTick c3core + 3) (13 + 15 + eps) 3 ∧
    (Simulation.lacerate witPhys 13 c3core).1.lacerate_ticks =
      [12, 15, 18, 21, 24, 27] ∧
    (Simulation.lacerate witPhys 13 c3core).1.lacerate_stacks = 3 := by
  have h := lacerate_refresh_extends_cadence witPhys 13 c3core rfl rfl
  have hlast : lacLastTick c3core = 12 := by
    simp [lacLastTick, c3core]
  have hceil : ⌈(((13 : ℚ) + 15 + eps) - (12 + 3)) / 3⌉ = (5 : ℤ) :=
    ceilEval (by norm_num [eps]) (by norm_num [eps])
  have harr : arangeQ (12 + 3) (13 + 15 + eps) 3 = [15, 18, 21, 24, 27] := by
    unfold arangeQ
    rw [hceil]
    rw [show Int.toNat 5 = 5 from rfl]
    norm_num [List.range_succ]
  have hconc : (Simulation.lacerate witPhys 13 c3core).1.lacerate_ticks =
      [12, 15, 18, 21, 24, 27] := by
    rw [h.1, hlast, harr]
    simp [c3core]
  refine ⟨rfl, rfl, h.1, hconc, ?_⟩
  rw [h.2.2.1]
  simp [c3core]

/-! ## C4: the Glyph of Shred extension -/

/-- C4: a successful Shred with Rip active and the glyph equipped pushes
`rip_end` by exactly 2 and appends exactly one tick (the new `rip_end`)
while the current duration is below `rip_duration + 6`; once the duration
has reached `rip_duration + 6`, further Shreds leave `rip_end` and the
tick schedule unchanged. -/
theorem shred_glyph_extension (phys : Phys) (c : Core)
    (hs : (phys.shred c.mangle_debuff c.player).2.2 = true)
    (hrip : c.rip_debuff = true)
    (hg : (phys.shred c.mangle_debuff c.player).1.shred_glyph = true) :
    (c.rip_end - c.rip_start <
        (phys.shred c.mangle_debuff c.player).1.rip_duration + 6 →
      (Simulation.shred phys c).1.rip_end = c.rip_end + 2 ∧
      (Simulation.shred phys c).1.rip_ticks =
        c.rip_ticks ++ [c.rip_end + 2]) ∧
    ((phys.shred c.mangle_debuff c.player).1.rip_duration + 6 ≤
        c.rip_end - c.rip_start →
      (Simulation.shred phys c).1.rip_end = c.rip_end ∧
      (Simulation.shred phys c).1.rip_ticks = c.rip_ticks) := by
  constructor
  · intro hlt
    constructor <;> simp [Simulation.shred, hs, hrip, hg, hlt]
  · intro hge
    have hnlt := not_lt.mpr hge
    constructor <;> simp [Simulation.shred, hs, hrip, hg, hnlt]

theorem shred_glyph_extension_witness :
    ((witPhys.shred c4core.mangle_debuff c4core.player).2.2 = true) ∧
    (c4core.rip_debuff = true) ∧
    ((witPhys.shred c4core.mangle_debuff c4core.player).1.shred_glyph =
      true) ∧
    (c4core.rip_end - c4core.rip_start <
      (witPhys.shred c4core.mangle_debuff c4core.player).1.rip_duration +
        6) ∧
    ((Simulation.shred witPhys c4core).1.rip_end = c4core.rip_end + 2 ∧
     (Simulation.shred witPhys c4core).1.rip_ticks =
       c4core.rip_ticks ++ [c4core.rip_end + 2]) := by
  have hlt : c4core.rip_end - c4core.rip_start <
      (witPhys.shred c4core.mangle_debuff c4core.player).1.rip_duration +
        6 := by
    norm_num [c4core, baseCore, basePlayer, witPhys, constPhys]
  exact ⟨rfl, rfl, rfl, hlt,
    (shred_glyph_extension witPhys c4core rfl rfl rfl).1 hlt⟩

/-! ## C5: logging noninterference -/

/-- The `log` flag and the combat-log accumulator never influence the core
state or the output samples of the main loop. -/
theorem runLoop_log_indep (phys : Phys) :
    ∀ (fuel : ℕ) (t pt : ℚ) (hot : ℕ) (c : Core) (acc : Acc)
      (b1 b2 : Bool) (cl1 cl2 : List LogLine),
      (runLoop phys fuel t pt hot c acc b1 cl1).1 =
        (runLoop phys fuel t pt hot c acc b2 cl2).1 ∧
      (runLoop phys fuel t pt hot c acc b1 cl1).2.1 =
        (runLoop phys fuel t pt hot c acc b2 cl2).2.1 := by
  intro fuel
  induction fuel with
  | zero =>
    intro t pt hot c acc b1 b2 cl1 cl2
    exact ⟨rfl, rfl⟩
  | succ n ih =>
    intro t pt hot c acc b1 b2 cl1 cl2
    by_cases h : c.fight_length < t
    · simp only [runLoop]
      rw [if_pos h, if_pos h]
      exact ⟨rfl, rfl⟩
    · simp only [runLoop]
      rw [if_neg h, if_neg h]
      exact ih _ _ _ _ _ _ _ _ _

/-- C5: for any collaborator behavior and any simulation state (hence any
identical random draws), `run` with logging enabled and `run` with logging
disabled produce identical times, damage, energy and combo-point series,
identical damage breakdowns, aura statistics and resource-exhaustion
records; the log flag only adds combat-log entries. -/
theorem run_logging_invariance (phys : Phys) (fuel : ℕ) (c : Core) :
    (Simulation.run phys fuel c true).observables =
      (Simulation.run phys fuel c false).observables := by
  obtain ⟨h1, h2⟩ := runLoop_log_indep phys fuel 0 0 0
    (Simulation.preamble phys c).1 ⟨[], [], [], []⟩ true false
    ((Simulation.preamble phys c).2) ([])
  simp only [Simulation.run, RunOut.observables, eq_self_iff_true,
    Bool.false_eq_true, if_true, if_false]
  rw [h1, h2]

/-! ## C7: the insufficient-resource policy -/

/-- C7 counterexample: at `c7family 30 42 102.5` (energy 30, Shred cost 42,
a pending Rip refresh at 102.5 whose reservation floats 5 energy), the
rotation at t = 100 performs no cast, but sets the next decision time to
101.8 — computed from the energy in excess of the floating reservation —
whereas the claim's formula `(cost - energy) / 10`, capped by the pending
refresh and plus latency, yields 101.3. -/
theorem rotation_wait_floating_energy_counterexample :
    (Simulation.execute_rotation constPhys 100 (c7family 30 42 102.5)).2.1 =
      0 ∧
    (Simulation.execute_rotation constPhys 100
      (c7family 30 42 102.5)).1.next_action = 101.8 ∧
    min ((100 : ℚ) + (42 - 30) / 10) 102.5 + 0.1 = 101.3 ∧
    ((101.8 : ℚ) ≠ 101.3) := by
  refine ⟨?_, ?_, by norm_num, by norm_num⟩ <;>
    norm_num [Simulation.execute_rotation, Simulation.rip_now,
      Simulation.bite_at_end, Simulation.mangle_now, Simulation.bite_now,
      Simulation.rake_now, Simulation.berserk_now, Simulation.roar_now,
      Simulation.rip_refresh_pending, Simulation.pending_actions,
      Simulation.floating_energy, Simulation.excess_e, Simulation.furor_cap,
      Simulation.bearweave_now, Simulation.emergency_bearweave,
      c7family, baseCore, basePlayer,
      baseStrategy, baseParams, constPhys, Simulation.berserk_expected_at,
      Simulation.tf_expected_before, Simulation.can_bite,
      Simulation.clip_roar, sortPairs, insertPair, eLt, rotationWait, b2q,
      eps, getQ, headQ]

/-- C7 (amended): in any cat-form rotation state with no shift pending, no
emergency bearweave and the Berserk gate closed, whenever the gate-selected
action's cost exceeds the available energy (with no Clearcasting bypass),
`execute_rotation` performs no cast and mutates only the next decision
time, setting it to the current time plus `(cost - available) / 10`,
capped by the earliest pending refresh due time, plus input latency, and
the wait is never negative; `available` is the raw energy for the
dedicated branches (Roar, Rip, Bite, Rake, Mangle) but the energy in
excess of the floating-energy reservation for the filler branches
(mangle-spam and Shred), one implication per branch of the source's
decision chain. -/
theorem rotation_wait_respects_floating_energy (phys : Phys) (c : Core)
    (t : ℚ) (hready : c.player.ready_to_shift = false)
    (hcat : c.player.cat_form = true)
    (heb : Simulation.emergency_bearweave c t = false)
    (hbz : Simulation.berserk_now c = false) :
    (Simulation.roar_now c t = true →
      c.player.energy < c.player.roar_cost →
      Simulation.execute_rotation phys t c =
        (rotationWait t ((c.player.roar_cost - c.player.energy) / 10)
          (Simulation.pending_actions c t) c, 0, []) ∧
      0 ≤ (c.player.roar_cost - c.player.energy) / 10) ∧
    (Simulation.roar_now c t = false → Simulation.rip_now c t = true →
      c.player.energy < c.player.rip_cost →
      Simulation.execute_rotation phys t c =
        (rotationWait t ((c.player.rip_cost - c.player.energy) / 10)
          (Simulation.pending_actions c t) c, 0, []) ∧
      0 ≤ (c.player.rip_cost - c.player.energy) / 10) ∧
    (Simulation.roar_now c t = false → Simulation.rip_now c t = false →
      Simulation.bite_now phys c t = true →
      c.player.energy < c.player.bite_cost →
      Simulation.execute_rotation phys t c =
        (rotationWait t ((c.player.bite_cost - c.player.energy) / 10)
          (Simulation.pending_actions c t) c, 0, []) ∧
      0 ≤ (c.player.bite_cost - c.player.energy) / 10) ∧
    (Simulation.roar_now c t = false → Simulation.rip_now c t = false →
      Simulation.bite_now phys c t = false → Simulation.rake_now c t = true →
      c.player.energy < c.player.rake_cost →
      Simulation.execute_rotation phys t c =
        (rotationWait t ((c.player.rake_cost - c.player.energy) / 10)
          (Simulation.pending_actions c t) c, 0, []) ∧
      0 ≤ (c.player.rake_cost - c.player.energy) / 10) ∧
    (Simulation.roar_now c t = false → Simulation.rip_now c t = false →
      Simulation.bite_now phys c t = false →
      Simulation.rake_now c t = false → Simulation.mangle_now c t = true →
      c.player.omen_proc = false →
      c.player.energy < c.player.mangle_cost →
      Simulation.execute_rotation phys t c =
        (rotationWait t ((c.player.mangle_cost - c.player.energy) / 10)
          (Simulation.pending_actions c t) c, 0, []) ∧
      0 ≤ (c.player.mangle_cost - c.player.energy) / 10) ∧
    (Simulation.roar_now c t = false → Simulation.rip_now c t = false →
      Simulation.bite_now phys c t = false →
      Simulation.rake_now c t = false → Simulation.mangle_now c t = false →
      Simulation.bearweave_now c t = false →
      c.strategy.mangle_spam = true → c.player.omen_proc = false →
      Simulation.excess_e c t < c.player.mangle_cost →
      Simulation.execute_rotation phys t c =
        (rotationWait t
          ((c.player.mangle_cost - Simulation.excess_e c t) / 10)
          (Simulation.pending_actions c t) c, 0, []) ∧
      0 ≤ (c.player.mangle_cost - Simulation.excess_e c t) / 10) ∧
    (Simulation.roar_now c t = false → Simulation.rip_now c t = false →
      Simulation.bite_now phys c t = false →
      Simulation.rake_now c t = false → Simulation.mangle_now c t = false →
      Simulation.bearweave_now c t = false →
      c.strategy.mangle_spam = false → c.player.omen_proc = false →
      Simulation.excess_e c t < c.player.shred_cost →
      Simulation.execute_rotation phys t c =
        (rotationWait t
          ((c.player.shred_cost - Simulation.excess_e c t) / 10)
          (Simulation.pending_actions c t) c, 0, []) ∧
      0 ≤ (c.player.shred_cost - Simulation.excess_e c t) / 10) := by
  refine ⟨?_, ?_, ?_, ?_, ?_, ?_, ?_⟩
  · intro hroar hE
    refine ⟨?_, div_nonneg (by linarith) (by norm_num)⟩
    unfold Simulation.execute_rotation
    simp only [hready, hcat, heb, hbz, hroar, Bool.false_eq_true,
      Bool.not_true, if_false, if_true, eq_self_iff_true]
    rw [if_neg (not_le.mpr hE)]
  · intro hroar hrip hE
    have homen : c.player.omen_proc = false := by
      have h := hrip
      unfold Simulation.rip_now at h
      simp only [Bool.and_eq_true, Bool.not_eq_true'] at h
      exact h.2
    refine ⟨?_, div_nonneg (by linarith) (by norm_num)⟩
    unfold Simulation.execute_rotation
    simp only [hready, hcat, heb, hbz, hroar, hrip, homen,
      Bool.false_eq_true, Bool.not_true, if_false, if_true,
      eq_self_iff_true, or_false]
    rw [if_neg (not_le.mpr hE)]
  · intro hroar hrip hbite hE
    refine ⟨?_, div_nonneg (by linarith) (by norm_num)⟩
    unfold Simulation.execute_rotation
    simp only [hready, hcat, heb, hbz, hroar, hrip, hbite,
      Bool.false_eq_true, Bool.not_true, if_false, if_true,
      eq_self_iff_true]
    rw [if_neg (not_le.mpr hE)]
  · intro hroar hrip hbite hrake hE
    have homen : c.player.omen_proc = false := by
      have h := hrake
      unfold Simulation.rake_now at h
      simp only [Bool.and_eq_true, Bool.not_eq_true'] at h
      exact h.2
    refine ⟨?_, div_nonneg (by linarith) (by norm_num)⟩
    unfold Simulation.execute_rotation
    simp only [hready, hcat, heb, hbz, hroar, hrip, hbite, hrake, homen,
      Bool.false_eq_true, Bool.not_true, if_false, if_true,
      eq_self_iff_true, or_false]
    rw [if_neg (not_le.mpr hE)]
  · intro hroar hrip hbite hrake hm homen hE
    refine ⟨?_, div_nonneg (by linarith) (by norm_num)⟩
    unfold Simulation.execute_rotation
    simp only [hready, hcat, heb, hbz, hroar, hrip, hbite, hrake, hm, homen,
      Bool.false_eq_true, Bool.not_true, if_false, if_true,
      eq_self_iff_true, or_false]
    rw [if_neg (not_le.mpr hE)]
  · intro hroar hrip hbite hrake hm hbw hms homen hE
    refine ⟨?_, div_nonneg (by linarith) (by norm_num)⟩
    unfold Simulation.execute_rotation
    simp only [hready, hcat, heb, hbz, hroar, hrip, hbite, hrake, hm, hbw,
      hms, homen, Bool.false_eq_true, Bool.not_true, Bool.not_false,
      Bool.and_self, Bool.and_true, Bool.true_and, if_false, if_true,
      eq_self_iff_true, or_false]
    rw [if_neg (not_le.mpr hE)]
  · intro hroar hrip hbite hrake hm hbw hms homen hE
    refine ⟨?_, div_nonneg (by linarith) (by norm_num)⟩
    unfold Simulation.execute_rotation
    simp only [hready, hcat, heb, hbz, hroar, hrip, hbite, hrake, hm, hbw,
      hms, homen, Bool.false_eq_true, Bool.not_true, Bool.not_false,
      Bool.false_and, if_false, if_true, eq_self_iff_true, or_false]
    rw [if_neg (not_le.mpr hE)]

theorem rotation_wait_respects_floating_energy_witness :
    Simulation.execute_rotation constPhys 100 (c7family 30 42 102.5) =
      (rotationWait 100
        (((c7family 30 42 102.5).player.shred_cost -
            Simulation.excess_e (c7family 30 42 102.5) 100) / 10)
        (Simulation.pending_actions (c7family 30 42 102.5) 100)
        (c7family 30 42 102.5), 0, []) ∧
    Simulation.execute_rotation constPhys 100 c7roar =
      (rotationWait 100
        ((c7roar.player.roar_cost - c7roar.player.energy) / 10)
        (Simulation.pending_actions c7roar 100) c7roar, 0, []) := by
  constructor
  · exact ((rotation_wait_respects_floating_energy constPhys
        (c7family 30 42 102.5) 100 rfl rfl rfl rfl).2.2.2.2.2.2
        rfl rfl rfl rfl rfl rfl rfl rfl
        (by norm_num [Simulation.excess_e, Simulation.floating_energy,
          Simulation.pending_actions, Simulation.rip_refresh_pending,
          Simulation.berserk_expected_at, c7family, baseCore, basePlayer,
          baseStrategy, baseParams, sortPairs, insertPair, eLt, eps])).1
  · exact ((rotation_wait_respects_floating_energy constPhys c7roar 100
        rfl rfl rfl rfl).1 rfl
        (by norm_num [c7roar, baseCore, basePlayer])).1

/-! ## C1: replicate seeding -/

/-- C1 counterexample: `iterate` called twice with the same would-be seed
argument (7) but different ambient entropy produces different outputs —
the fight-length jitter differs, so the returned oom-time field (the
randomized fight length when the player never went oom) differs. The
`*args` parameter of the source's `iterate` is ignored and
`np.random.seed()` draws fresh OS entropy, so no explicit seed determines
the replicate. -/
theorem iterate_entropy_dependence :
    Simulation.iterate constPhys 0 c1core 7 0 ≠
      Simulation.iterate constPhys 0 c1core 7 1 := by
  intro hEq
  have h4 := congrArg (fun r => r.2.2.2) hEq
  norm_num [Simulation.iterate, Simulation.run, Simulation.preamble,
    Simulation.finalize, runLoop, trinketsUpdate, ArmorDebuffs.update,
    trkUpdate, Core.draw, rngStream, Simulation.update_swing_times,
    constPhys, c1core, baseCore, basePlayer, baseParams, baseStrategy,
    TrkState.reset, headQ, b2q, eps, getQ] at h4

/-- C1 (amended): the argument passed to `iterate` (the iteration index
from `pool.imap`, the only candidate for an explicit seed) has no effect
whatsoever on the outputs: for a fixed ambient entropy the outputs are
identical across arguments, and all randomness is determined by the
per-call reseed from the environment rather than by any caller-supplied
seed. -/
theorem iterate_ignores_argument (phys : Phys) (fuel : ℕ) (c : Core)
    (a b entropy : ℕ) :
    Simulation.iterate phys fuel c a entropy =
      Simulation.iterate phys fuel c b entropy := rfl

end CatSim
